import Mathlib

/-!
The transparent serial bridge of k2-unleashed (`src/gd32/usart_transparent.c`).

A shallow embedding of the timer driven send/receive state machine of the
transparent serial bridge, followed by theorems about it.

Conventions of the embedding

* C unsigned integers are `Nat` with the wrap-around written out
  (`% 256` for `uint8_t`, `% 2^32` for `uint32_t`); `int8_t` is `Int`, and a
  conversion to it goes through `toInt8`.
* The two file-level arrays `txBuf` and `rxBuf` (60 bytes each) are lists in
  `Globals`.  Every `buffer_s.buf` pointer is assigned only `txBuf` (for the
  `txBuf` member) or `rxBuf` (for the `rxBuf` member), so the pointer field is
  not represented: `t->txBuf.buf[i]` is `g.txBuf[i]` and `t->rxBuf.buf[i]` is
  `g.rxBuf[i]`.
* A store outside an array is undefined behaviour in C.  The embedding drops
  such a store (`List.set`), reads 0 for a load outside (`List.getD`), and
  records the index of every received-byte store in the trace, so that bounds
  can be stated about it.
* Hardware and scheduler interaction is explicit: what the hardware returns
  is an input (`EventIn`, the `now` argument), what the code does to the
  outside is a trace of `Eff`.
* `CONFIG_CLOCK_FREQ`, `CONFIG_TRANSPARENT_SERIAL_BAUD` and `timer_from_us`
  come from headers that are not part of the sources at hand; they are the
  fields of the parameter `Board`.
-/

namespace K2

/-! ## Constants and machine arithmetic -/

/-- The macro `TRANSPARENT_DATA_LEN_MAX`. -/
def TRANSPARENT_DATA_LEN_MAX : Nat := 60

/-- The enumerator `START_RX = 0x01 << 1`. -/
def START_RX : Nat := 2

/-- The enumerator `START_REPORT = 0x01 << 2`. -/
def START_REPORT : Nat := 4

/-- The enumerator `START_TX = 0x01 << 3`. -/
def START_TX : Nat := 8

/-- The enumerator `RX_TIMEOUT = 0x01 << 4`. -/
def RX_TIMEOUT : Nat := 16

/-- Number of values of a `uint32_t`. -/
def U32 : Nat := 4294967296

/-- Subtraction of two `uint32_t` values, as C computes it. -/
def sub32 (a b : Nat) : Nat := (a % U32 + U32 - b % U32) % U32

/-- Addition of two `uint32_t` values, as C computes it. -/
def add32 (a b : Nat) : Nat := (a + b) % U32

/-- Conversion of an unsigned value to `int8_t` (two's complement, as the
compilers for this target do it). -/
def toInt8 (n : Nat) : Int :=
  if n % 256 < 128 then ((n % 256 : Nat) : Int) else ((n % 256 : Nat) : Int) - 256

/-- The flag byte with the bits of `m` cleared: `flag &= ~m` on a `uint8_t`. -/
def clear_bits (flag m : Nat) : Nat := flag &&& (255 - m)

/-- Build-time values that the sources take from headers outside `src/`. -/
structure Board where
  /-- The value of `CONFIG_CLOCK_FREQ`. -/
  CONFIG_CLOCK_FREQ : Nat
  /-- The value of `CONFIG_TRANSPARENT_SERIAL_BAUD`. -/
  CONFIG_TRANSPARENT_SERIAL_BAUD : Nat
  /-- The function `timer_from_us` of `board/misc.h`. -/
  timer_from_us : Nat → Nat

/-- The macro `TRANSPARENT_POLLING_PERIOD_TICKS`. -/
def TRANSPARENT_POLLING_PERIOD_TICKS (brd : Board) : Nat :=
  brd.CONFIG_CLOCK_FREQ / brd.CONFIG_TRANSPARENT_SERIAL_BAUD * 5

/-! ## Data model -/

/-- The C `struct buffer_s` without its `buf` pointer (see the conventions). -/
structure buffer_s where
  dataIndx : Nat
  expLen : Nat
  timeoutS : Int
  timeoutUs : Nat
  startTime : Nat
deriving DecidableEq, Repr

/-- The C `struct timer`: its wake time, and whether the scheduler holds it
(`sched_add_timer` sets `armed`, `sched_del_timer` clears it). -/
structure timer where
  waketime : Nat
  armed : Bool
deriving DecidableEq, Repr

/-- The C `struct transparent_s`. -/
structure transparent_s where
  timer : timer
  txBuf : buffer_s
  rxBuf : buffer_s
  flag : Nat
deriving DecidableEq, Repr

/-- The file-level variables `txBuf`, `rxBuf` and `transparent_wake`. -/
structure Globals where
  txBuf : List Nat
  rxBuf : List Nat
  transparent_wake : Bool
deriving DecidableEq, Repr

/-- What a function does to the world outside the channel state. -/
inductive Eff where
  /-- A read of `USART_DATA(USARTx)`; `v` is the byte kept from it. -/
  | uart_read (v : Nat)
  /-- A write of `v` to `USART_DATA(USARTx)`. -/
  | uart_write (v : Nat)
  /-- The store `t->rxBuf.buf[idx] = v` of a received byte. -/
  | rx_store (idx v : Nat)
  /-- A call `sched_wake_task(&transparent_wake)`. -/
  | wake
  /-- A call `sendf("transparent_response oid=%c read=%*s", oid, count, bytes)`. -/
  | response (oid count : Nat) (bytes : List Nat)
  /-- A call `sched_add_timer(&t->timer)`. -/
  | add_timer
  /-- A call `sched_del_timer(&t->timer)`. -/
  | del_timer
  /-- A call `shutdown(msg)`, which does not return. -/
  | shutdown (msg : String)
deriving DecidableEq, Repr

/-- The return value of a timer callback (`sched.h`). -/
inductive sf where
  | SF_DONE
  | SF_RESCHEDULE
deriving DecidableEq, Repr

/-- What the hardware returns to one invocation of `transparent_event`: the
five places that call `timer_read_time()`, the two status flags and the data
register. -/
structure EventIn where
  /-- The call `timer_read_time()` in the one-second test. -/
  now_sec_chk : Nat
  /-- The call `timer_read_time()` that restarts the one-second window. -/
  now_sec_set : Nat
  /-- The call `timer_read_time()` in the timeout test. -/
  now_chk : Nat
  /-- The call `timer_read_time()` after a byte was received. -/
  now_rx : Nat
  /-- The call `timer_read_time()` when the last byte was written. -/
  now_tx : Nat
  /-- Whether `USART_FLAG_RBNE` (receive buffer not empty) is set. -/
  rbne : Bool
  /-- The value of `USART_DATA(USARTx)`. -/
  data : Nat
  /-- Whether `USART_FLAG_TBE` (transmit buffer empty) is set. -/
  tbe : Bool
deriving DecidableEq, Repr

/-- The state and effects a function leaves behind. -/
structure Out where
  g : Globals
  t : transparent_s
  trace : List Eff
deriving DecidableEq, Repr

/-- The state, effects and return value of `transparent_event`. -/
structure EventOut where
  g : Globals
  t : transparent_s
  ret : sf
  trace : List Eff
deriving DecidableEq, Repr

/-! ## Memory helpers -/

/-- The loop `for(tmpI = 0; tmpI < n; tmpI++) buf[tmpI] = 0;`. -/
def zero_fill (buf : List Nat) : Nat → List Nat
  | 0 => buf
  | n + 1 => (zero_fill buf n).set n 0

/-- The call `memcpy(dst, src, n)`. -/
def memcpy (dst src : List Nat) : Nat → List Nat
  | 0 => dst
  | n + 1 => (memcpy dst src n).set n (src.getD n 0)

/-- The byte that `(uint16_t)(GET_BITS(USART_DATA(USARTx), 0U, 8U))` leaves in
a `uint8_t`: bits 0..8 of the register, cut to eight bits by the store. -/
def rx_byte (data : Nat) : Nat := data % 512 % 256

/-! ## transparent_event -/

/-- The one-second accounting at the head of the receive branch:
`if(timeoutS > 0) if((now - startTime) > timer_from_us(1000000))
 { startTime = now; timeoutS--; }`. -/
def rx_seconds (brd : Board) (inp : EventIn) (rx : buffer_s) : buffer_s :=
  if rx.timeoutS > 0 then
    if sub32 inp.now_sec_chk rx.startTime > brd.timer_from_us 1000000 then
      { rx with startTime := inp.now_sec_set, timeoutS := rx.timeoutS - 1 }
    else rx
  else rx

/-- The timeout test
`timeoutS == 0 && startTime != 0 && (now - startTime) > timer_from_us(timeoutUs)`. -/
def rx_timed_out (brd : Board) (inp : EventIn) (rx : buffer_s) : Bool :=
  decide (rx.timeoutS = 0) && decide (rx.startTime ≠ 0) &&
    decide (sub32 inp.now_chk rx.startTime > brd.timer_from_us rx.timeoutUs)

/-- The transmit branch `if((t->flag & START_TX) == START_TX) ...` and the
final `return SF_RESCHEDULE`. -/
def tx_block (inp : EventIn) (g : Globals) (t : transparent_s) (tr : List Eff) : EventOut :=
  if t.flag &&& START_TX = START_TX then
    if inp.tbe then
      let tr1 := tr ++ [Eff.uart_write (g.txBuf.getD t.txBuf.dataIndx 0)]
      let t1 := { t with txBuf := { t.txBuf with dataIndx := (t.txBuf.dataIndx + 1) % 256 } }
      if t1.txBuf.dataIndx ≥ t1.txBuf.expLen then
        let t2 := { t1 with flag := clear_bits t1.flag START_TX }
        let t3 := { t2 with rxBuf := { t2.rxBuf with startTime := inp.now_tx } }
        let t4 := { t3 with flag := t3.flag ||| START_RX }
        { g := g, t := t4, ret := sf.SF_RESCHEDULE, trace := tr1 }
      else
        { g := g, t := t1, ret := sf.SF_RESCHEDULE, trace := tr1 }
    else
      { g := g, t := t, ret := sf.SF_RESCHEDULE, trace := tr }
  else
    { g := g, t := t, ret := sf.SF_RESCHEDULE, trace := tr }

/-- The tail of the byte intake: advance the cursor, stamp the activity tick,
and finish the frame when `expLen != 0 && dataIndx >= expLen`. -/
def rx_advance (inp : EventIn) (g : Globals) (t : transparent_s) (tr : List Eff) : EventOut :=
  let t1 := { t with rxBuf := { t.rxBuf with dataIndx := (t.rxBuf.dataIndx + 1) % 256 } }
  let t2 := { t1 with rxBuf := { t1.rxBuf with startTime := inp.now_rx } }
  if t2.rxBuf.expLen ≠ 0 ∧ t2.rxBuf.dataIndx ≥ t2.rxBuf.expLen then
    let t3 := { t2 with flag := clear_bits t2.flag START_RX }
    let t4 := { t3 with flag := t3.flag ||| START_REPORT }
    { g := { g with transparent_wake := true }, t := t4, ret := sf.SF_DONE,
      trace := tr ++ [Eff.wake] }
  else
    tx_block inp g t2 tr

/-- The timer callback `transparent_event`. -/
def transparent_event (brd : Board) (inp : EventIn) (g : Globals) (t : transparent_s) :
    EventOut :=
  let t0 := { t with timer := { t.timer with
    waketime := add32 t.timer.waketime (TRANSPARENT_POLLING_PERIOD_TICKS brd) } }
  if t0.flag &&& START_RX = START_RX then
    let t1 := { t0 with rxBuf := rx_seconds brd inp t0.rxBuf }
    if rx_timed_out brd inp t1.rxBuf then
      let t2 := { t1 with flag := clear_bits t1.flag START_RX }
      let t3 := { t2 with flag := t2.flag ||| RX_TIMEOUT }
      let g1 := { g with rxBuf := zero_fill g.rxBuf t3.rxBuf.expLen }
      let t4 := { t3 with rxBuf :=
        { dataIndx := 0, expLen := 0, startTime := 0, timeoutS := 0, timeoutUs := 0 } }
      { g := { g1 with transparent_wake := true }, t := t4, ret := sf.SF_DONE,
        trace := [Eff.wake] }
    else if inp.rbne then
      let b := rx_byte inp.data
      let g1 := { g with rxBuf := g.rxBuf.set t1.rxBuf.dataIndx b }
      let tr := [Eff.uart_read b, Eff.rx_store t1.rxBuf.dataIndx b]
      if t1.rxBuf.dataIndx = 2 then
        let t2 := { t1 with rxBuf := { t1.rxBuf with
          expLen := (g1.rxBuf.getD t1.rxBuf.dataIndx 0 + 3) % 256 } }
        if t2.rxBuf.expLen > TRANSPARENT_DATA_LEN_MAX then
          let t3 := { t2 with rxBuf :=
            { dataIndx := 0, expLen := 0, startTime := 0, timeoutS := 0, timeoutUs := 0 } }
          let t4 := { t3 with flag := 0 }
          let t5 := { t4 with flag := t4.flag ||| RX_TIMEOUT }
          { g := { g1 with transparent_wake := true }, t := t5, ret := sf.SF_DONE,
            trace := tr ++ [Eff.wake] }
        else
          rx_advance inp g1 t2 tr
      else
        rx_advance inp g1 t1 tr
    else
      tx_block inp g t1 []
  else
    tx_block inp g t0 []

/-- Whether this invocation takes the timeout branch of the receive phase:
the timeout test, evaluated where the code evaluates it, after the one-second
accounting. -/
def timeout_fires (brd : Board) (inp : EventIn) (t : transparent_s) : Bool :=
  rx_timed_out brd inp (rx_seconds brd inp t.rxBuf)

/-! ## command_transparent_send -/

/-- The conversion of `timeout_ms` into whole seconds and a remainder:
`if(args[3] > 2500) { timeoutS = args[3] / 1000; timeoutUs = args[3] % 1000 * 1000; }
 else { timeoutS = 0; timeoutUs = args[3] * 1000; }`. -/
def send_timeout (args3 : Nat) (rx : buffer_s) : buffer_s :=
  if args3 > 2500 then
    { rx with timeoutS := toInt8 (args3 / 1000), timeoutUs := (args3 % 1000 * 1000) % U32 }
  else
    { rx with timeoutS := 0, timeoutUs := (args3 * 1000) % U32 }

/-- The command handler `command_transparent_send` on the channel `t` that
`oid_lookup(args[0], ...)` returned.  `args1` is `args[1]` (the length),
`write` the bytes at `command_decode_ptr(args[2])`, `args3` is `args[3]`
(`timeout_ms`), and `now` what `timer_read_time()` returns. -/
def command_transparent_send (brd : Board) (args1 : Nat) (write : List Nat) (args3 : Nat)
    (now : Nat) (g : Globals) (t : transparent_s) : Out :=
  if t.flag &&& START_TX ≠ 0 ∨ t.flag &&& START_RX ≠ 0 then
    { g := g, t := t, trace := [] }
  else
    let t1 := { t with txBuf := { t.txBuf with expLen := args1 % 256 } }
    let t2 := { t1 with rxBuf := send_timeout args3 t1.rxBuf }
    if args1 > TRANSPARENT_DATA_LEN_MAX then
      { g := g, t := t2, trace := [Eff.shutdown "data is too long"] }
    else
      let t3 := { t2 with rxBuf := { t2.rxBuf with startTime := 0 } }
      let t4 := { t3 with txBuf := { t3.txBuf with dataIndx := 0 } }
      let g1 := { g with txBuf := memcpy g.txBuf write t4.txBuf.expLen }
      let t5 := { t4 with timer := { t4.timer with
        waketime := add32 now (brd.timer_from_us 200) } }
      let t6 := { t5 with flag := t5.flag ||| START_TX }
      let t7 := { t6 with timer := { t6.timer with armed := true } }
      { g := g1, t := t7, trace := [Eff.add_timer] }

/-! ## transparent_task -/

/-- The body of the `foreach_oid` loop of `transparent_task` for the channel
`t` with object id `oid`. -/
def transparent_task_body (oid : Nat) (g : Globals) (t : transparent_s) : Out :=
  let t1 :=
    if t.flag &&& RX_TIMEOUT ≠ 0 then
      { t with flag := clear_bits t.flag RX_TIMEOUT, rxBuf := { t.rxBuf with expLen := 0 } }
    else if t.flag &&& START_REPORT ≠ 0 then
      { t with flag := clear_bits t.flag START_REPORT }
    else t
  let tr := [Eff.response oid t1.rxBuf.expLen (g.rxBuf.take t1.rxBuf.expLen)]
  let g1 := { g with rxBuf := zero_fill g.rxBuf t1.rxBuf.expLen }
  let t2 := { t1 with txBuf := { t1.txBuf with dataIndx := 0, expLen := 0 } }
  let t3 := { t2 with rxBuf := { t2.rxBuf with dataIndx := 0, expLen := 0 } }
  let t4 := { t3 with flag := 0 }
  let t5 := { t4 with timer := { t4.timer with armed := false } }
  { g := g1, t := t5, trace := tr ++ [Eff.del_timer] }

/-- The firmware state the bridge works on: the file-level variables and the
object table entries created by `command_config_transparent`, in the order
`foreach_oid` visits them. -/
structure World where
  g : Globals
  objs : List (Nat × transparent_s)
deriving DecidableEq, Repr

/-- The `foreach_oid` loop of `transparent_task`. -/
def task_loop (g : Globals) : List (Nat × transparent_s) →
    Globals × List (Nat × transparent_s) × List Eff
  | [] => (g, [], [])
  | (oid, t) :: rest =>
    let o := transparent_task_body oid g t
    let r := task_loop o.g rest
    (r.1, (oid, o.t) :: r.2.1, o.trace ++ r.2.2)

/-- The task `transparent_task`: nothing unless `sched_check_wake` finds the
wake flag set (and clears it), then the loop over all channels. -/
def transparent_task (w : World) : World × List Eff :=
  if w.g.transparent_wake then
    let r := task_loop { w.g with transparent_wake := false } w.objs
    ({ g := r.1, objs := r.2.1 }, r.2.2)
  else (w, [])

/-- Successive invocations of `transparent_event`, one per input, each on the
state the previous one left. -/
def poll (brd : Board) (g : Globals) (t : transparent_s) : List EventIn → List EventOut
  | [] => []
  | inp :: rest =>
    let o := transparent_event brd inp g t
    o :: poll brd o.g o.t rest

/-- No invocation of a run takes the timeout branch. -/
def no_timeout (brd : Board) (g : Globals) (t : transparent_s) : List EventIn → Prop
  | [] => True
  | inp :: rest =>
    timeout_fires brd inp t = false ∧
      no_timeout brd (transparent_event brd inp g t).g (transparent_event brd inp g t).t rest

/-! ## Invariants and sample data used by the theorems -/

/-- The receive invariant of a frame of total length `L` of which `k` bytes
are stored. -/
structure receiving (L k : Nat) (g : Globals) (t : transparent_s) : Prop where
  flag_lt : t.flag < 256
  rx_set : t.flag &&& START_RX = START_RX
  no_to : t.flag &&& RX_TIMEOUT = 0
  len : g.rxBuf.length = 60
  idx : t.rxBuf.dataIndx = k
  exp_lo : k ≤ 2 → t.rxBuf.expLen = 0
  exp_hi : 3 ≤ k → t.rxBuf.expLen = L

/-- A board with a 120 MHz timer and a 115200 baud bridge. -/
def demo_board : Board :=
  { CONFIG_CLOCK_FREQ := 120000000, CONFIG_TRANSPARENT_SERIAL_BAUD := 115200,
    timer_from_us := fun us => (us * 120) % U32 }

/-- Both arrays zeroed, the task not woken. -/
def demo_globals : Globals :=
  { txBuf := List.replicate 60 0, rxBuf := List.replicate 60 0, transparent_wake := false }

/-- A channel that has just entered RECEIVE at tick 1000 with a 1 s timeout. -/
def demo_receiving : transparent_s :=
  { timer := { waketime := 6200, armed := true },
    txBuf := { dataIndx := 2, expLen := 2, timeoutS := 0, timeoutUs := 0, startTime := 0 },
    rxBuf := { dataIndx := 0, expLen := 0, timeoutS := 0, timeoutUs := 1000000, startTime := 1000 },
    flag := START_RX }

/-- What the hardware shows at tick `now`: a byte `d` ready to be read. -/
def demo_byte (now d : Nat) : EventIn :=
  { now_sec_chk := now, now_sec_set := now, now_chk := now, now_rx := now, now_tx := now,
    rbne := true, data := d, tbe := false }

/-- A channel in RECEIVE that holds two bytes of a frame. -/
def demo_two_stored : transparent_s :=
  { timer := { waketime := 6200, armed := true },
    txBuf := { dataIndx := 2, expLen := 2, timeoutS := 0, timeoutUs := 0, startTime := 0 },
    rxBuf := { dataIndx := 2, expLen := 0, timeoutS := 0, timeoutUs := 1000000, startTime := 3000 },
    flag := START_RX }

/-- A channel in RECEIVE whose 1 s timeout started at tick 1000, with three
bytes of a longer frame stored. -/
def demo_waiting : transparent_s :=
  { timer := { waketime := 6200, armed := true },
    txBuf := { dataIndx := 2, expLen := 2, timeoutS := 0, timeoutUs := 0, startTime := 0 },
    rxBuf := { dataIndx := 3, expLen := 8, timeoutS := 0, timeoutUs := 1000000, startTime := 1000 },
    flag := START_RX }

/-- What the hardware shows at tick `now` when nothing is ready. -/
def demo_silence (now : Nat) : EventIn :=
  { now_sec_chk := now, now_sec_set := now, now_chk := now, now_rx := now, now_tx := now,
    rbne := false, data := 0, tbe := false }

/-- A channel whose frame is complete and not yet reported (REPORT_PENDING). -/
def demo_pending : transparent_s :=
  { timer := { waketime := 6200, armed := false },
    txBuf := { dataIndx := 2, expLen := 2, timeoutS := 0, timeoutUs := 0, startTime := 0 },
    rxBuf := { dataIndx := 5, expLen := 5, timeoutS := 0, timeoutUs := 1000000, startTime := 6000 },
    flag := START_REPORT }

/-- A configured channel at rest. -/
def demo_idle : transparent_s :=
  { timer := { waketime := 0, armed := false },
    txBuf := { dataIndx := 0, expLen := 0, timeoutS := 0, timeoutUs := 0, startTime := 0 },
    rxBuf := { dataIndx := 0, expLen := 0, timeoutS := 0, timeoutUs := 0, startTime := 0 },
    flag := 0 }

/-- A channel in TRANSMIT: one of three bytes written, timer scheduled. -/
def demo_transmitting : transparent_s :=
  { timer := { waketime := 9000, armed := true },
    txBuf := { dataIndx := 1, expLen := 3, timeoutS := 0, timeoutUs := 0, startTime := 0 },
    rxBuf := { dataIndx := 0, expLen := 0, timeoutS := 0, timeoutUs := 500000, startTime := 0 },
    flag := START_TX }

/-- Two channels after channel 0 completed the frame `[1, 2, 2, 9, 7]` and
woke the task, while channel 1 is in TRANSMIT. -/
def demo_world : World :=
  { g := { txBuf := [1, 2, 0] ++ List.replicate 57 0,
           rxBuf := [1, 2, 2, 9, 7] ++ List.replicate 55 0,
           transparent_wake := true },
    objs := [(0, demo_pending), (1, demo_transmitting)] }

/-! ## Configuration, reachable states, several channels -/

/-- The command handler `command_config_transparent` on the object `a` that
`oid_alloc` returned: both cursors, both expected lengths and the flag are set
to 0, the other members keep what the allocation left in them.  (The `buf`
pointers and `timer.func` are not represented, `usart_init` touches only
hardware registers.) -/
def command_config_transparent (a : transparent_s) : transparent_s :=
  { a with
    txBuf := { a.txBuf with dataIndx := 0, expLen := 0 },
    rxBuf := { a.rxBuf with dataIndx := 0, expLen := 0 },
    flag := 0 }

/-- The states of one channel (with the file-level variables) that can be
reached from a freshly configured channel by sends, timer callbacks and runs
of the report task, in any order and with any arguments and hardware
inputs. -/
inductive Reach (brd : Board) : Globals → transparent_s → Prop where
  | config (g : Globals) (a : transparent_s)
      (htx : g.txBuf.length = TRANSPARENT_DATA_LEN_MAX)
      (hrx : g.rxBuf.length = TRANSPARENT_DATA_LEN_MAX) :
      Reach brd g (command_config_transparent a)
  | send (g : Globals) (t : transparent_s) (args1 : Nat) (write : List Nat) (args3 now : Nat)
      (h : Reach brd g t) :
      Reach brd (command_transparent_send brd args1 write args3 now g t).g
        (command_transparent_send brd args1 write args3 now g t).t
  | event (g : Globals) (t : transparent_s) (inp : EventIn) (h : Reach brd g t) :
      Reach brd (transparent_event brd inp g t).g (transparent_event brd inp g t).t
  | task (g : Globals) (t : transparent_s) (oid : Nat) (g1 : Globals) (t1 : transparent_s)
      (tr : List Eff) (h : Reach brd g t)
      (hrun : transparent_task { g := g, objs := [(oid, t)] } =
        ({ g := g1, objs := [(oid, t1)] }, tr)) :
      Reach brd g1 t1

/-- Whether an effect is an access to the UART data register. -/
def is_uart : Eff → Bool
  | Eff.uart_read _ => true
  | Eff.uart_write _ => true
  | _ => false

/-- The number of accesses to the UART data register in a trace. -/
def uart_ops (tr : List Eff) : Nat := tr.countP is_uart

/-- The changes `transparent_event` can make to the flag byte: none,
RECEIVE to TIMED_OUT by timeout, RECEIVE to TIMED_OUT by an over-long frame,
RECEIVE to REPORT_PENDING, and TRANSMIT to RECEIVE. -/
def flag_step (f f1 : Nat) : Prop :=
  f1 = f ∨ f1 = clear_bits f START_RX ||| RX_TIMEOUT ∨ f1 = RX_TIMEOUT ∨
    f1 = clear_bits f START_RX ||| START_REPORT ∨
    (f &&& START_TX = START_TX ∧ f1 = clear_bits f START_TX ||| START_RX)

/-- The state after successive invocations of `transparent_event`, one per
input. -/
def run_events (brd : Board) (g : Globals) (t : transparent_s) :
    List EventIn → Globals × transparent_s
  | [] => (g, t)
  | inp :: rest =>
    run_events brd (transparent_event brd inp g t).g (transparent_event brd inp g t).t rest

/-- What the hardware shows at tick `now` when the transmitter can take a
byte and nothing was received. -/
def demo_ready (now : Nat) : EventIn :=
  { now_sec_chk := now, now_sec_set := now, now_chk := now, now_rx := now, now_tx := now,
    rbne := false, data := 0, tbe := true }

/-- A freshly configured channel after an accepted send of the one byte `7`
with a 1 s timeout at tick 7000. -/
def demo_sent : Out :=
  command_transparent_send demo_board 1 [7] 1000 7000 demo_globals
    (command_config_transparent demo_idle)

/-- The hardware inputs of a run after `demo_sent`: the byte goes out, then
the peer answers `1, 2, 254`. -/
def demo_short_frame : List EventIn :=
  [demo_ready 7100, demo_byte 7200 1, demo_byte 7300 2, demo_byte 7400 254]

/-- The hardware inputs of a run after `demo_sent`: the byte goes out, then
the peer answers `1, 2, 253` and 57 more bytes `9`. -/
def demo_long_frame : List EventIn :=
  [demo_ready 7100, demo_byte 7200 1, demo_byte 7300 2, demo_byte 7400 253] ++
    (List.range 57).map (fun i => demo_byte (7500 + 100 * i) 9)

/-- The object table with the entry of `oid` replaced by `t`. -/
def set_obj (objs : List (Nat × transparent_s)) (oid : Nat) (t : transparent_s) :
    List (Nat × transparent_s) :=
  objs.map (fun c => if c.1 = oid then (c.1, t) else c)

/-- The command handler `command_transparent_send` with its first statement,
`oid_lookup(args[0], command_config_transparent)`: the handler body runs on the
channel found and on the shared file-level variables.  Without such a channel
`oid_lookup` does not return (`none`). -/
def World.command_transparent_send (brd : Board) (oid args1 : Nat) (write : List Nat)
    (args3 now : Nat) (w : World) : Option (World × List Eff) :=
  match w.objs.lookup oid with
  | none => none
  | some t =>
    some ({ g := (K2.command_transparent_send brd args1 write args3 now w.g t).g,
            objs := set_obj w.objs oid
              (K2.command_transparent_send brd args1 write args3 now w.g t).t },
          (K2.command_transparent_send brd args1 write args3 now w.g t).trace)

/-- Two freshly configured channels, object ids 0 and 1. -/
def demo_two_channels : World :=
  { g := demo_globals,
    objs := [(0, command_config_transparent demo_idle), (1, command_config_transparent demo_idle)] }

/-- An invocation of `transparent_event` that ends the transaction: it
returns SF_DONE, wakes the task, and finds START_RX set, which it leaves clear
with RX_TIMEOUT or START_REPORT set. -/
def terminal_step (f : Nat) (o : EventOut) : Prop :=
  o.ret = sf.SF_DONE ∧ Eff.wake ∈ o.trace ∧ o.g.transparent_wake = true ∧
    f &&& START_RX = START_RX ∧
    (o.t.flag = clear_bits f START_RX ||| RX_TIMEOUT ∨ o.t.flag = RX_TIMEOUT ∨
      o.t.flag = clear_bits f START_RX ||| START_REPORT)

/-- An invocation of `transparent_event` that goes on: it returns
SF_RESCHEDULE, wakes nothing, and leaves the flag as it was or moves it from
TRANSMIT to RECEIVE. -/
def plain_step (f : Nat) (w : Bool) (o : EventOut) : Prop :=
  o.ret = sf.SF_RESCHEDULE ∧ Eff.wake ∉ o.trace ∧ o.g.transparent_wake = w ∧
    (o.t.flag = f ∨ (f &&& START_TX = START_TX ∧ o.t.flag = clear_bits f START_TX ||| START_RX))

/-- A run with a silent peer, on a counter that does not wrap: no input has a
byte ready, the ticks read are below 2^32 and never decrease, within one
invocation and from one invocation to the next, starting from `last`. -/
def ticks_ok (last : Nat) : List EventIn → Prop
  | [] => True
  | inp :: rest =>
    inp.rbne = false ∧ last ≤ inp.now_sec_chk ∧ inp.now_sec_chk ≤ inp.now_sec_set ∧
      inp.now_sec_set ≤ inp.now_chk ∧ inp.now_chk < U32 ∧ ticks_ok inp.now_chk rest

/-- The number of invocations of a run in which the whole-seconds counter
`rx.timeoutS` is decremented. -/
def sec_decrements (brd : Board) (g : Globals) (t : transparent_s) : List EventIn → Nat
  | [] => 0
  | inp :: rest =>
    (if t.flag &&& START_RX = START_RX ∧
        (rx_seconds brd inp t.rxBuf).timeoutS < t.rxBuf.timeoutS then 1 else 0) +
      sec_decrements brd (transparent_event brd inp g t).g (transparent_event brd inp g t).t rest

/-- What the silent run of the timeout theorem keeps true while the channel
is in RECEIVE: `d` decrements so far, each after more than a second of
ticks. -/
structure counting (brd : Board) (S U t0 last d : Nat) (t : transparent_s) : Prop where
  us : t.rxBuf.timeoutUs = U
  secs : t.rxBuf.timeoutS + (d : Int) = (S : Int)
  nonneg : 0 ≤ t.rxBuf.timeoutS
  late : t0 + d * (brd.timer_from_us 1000000 + 1) ≤ t.rxBuf.startTime
  before : t.rxBuf.startTime ≤ last

/-- A channel that entered RECEIVE at tick 1000 after a send with
`timeout_ms = 3200`. -/
def demo_long_wait : transparent_s :=
  { timer := { waketime := 6200, armed := true },
    txBuf := { dataIndx := 2, expLen := 2, timeoutS := 0, timeoutUs := 0, startTime := 0 },
    rxBuf := { dataIndx := 0, expLen := 0, timeoutS := 3, timeoutUs := 200000, startTime := 1000 },
    flag := START_RX }

/-- Four invocations with a silent peer, at ticks 130, 260, 390 and 420
million. -/
def demo_quiet_run : List EventIn :=
  [demo_silence 130000000, demo_silence 260000000, demo_silence 390000000,
    demo_silence 420000000]

/-- The byte of an effect that is a write to the UART data register. -/
def written : Eff → Option Nat
  | Eff.uart_write v => some v
  | _ => none

/-- The bytes a run writes to the UART data register, in order. -/
def uart_writes (outs : List EventOut) : List Nat :=
  (outs.map (fun o => o.trace.filterMap written)).flatten

/-! ## usart_init: the baud divider -/

/-- The macro `USARTX_CLOCK_FREQ()`. -/
def USARTX_CLOCK_FREQ : Nat := 60000000

/-- The divider of `usart_init`:
`udiv = (uclk + CONFIG_TRANSPARENT_SERIAL_BAUD / 2U) / CONFIG_TRANSPARENT_SERIAL_BAUD`
in `uint32_t` arithmetic. -/
def usart_init_udiv (brd : Board) : Nat :=
  add32 USARTX_CLOCK_FREQ (brd.CONFIG_TRANSPARENT_SERIAL_BAUD % U32 / 2) /
    (brd.CONFIG_TRANSPARENT_SERIAL_BAUD % U32)

/-- The value `usart_init` writes to `USART_BAUD(USARTx)`:
`intdiv = udiv & 0xfff0; fradiv = udiv & 0xf;` and then
`(USART_BAUD_FRADIV | USART_BAUD_INTDIV) & (intdiv | fradiv)`.  The two field
masks come from a header outside the sources and are arguments. -/
def usart_init_baud (brd : Board) (USART_BAUD_FRADIV USART_BAUD_INTDIV : Nat) : Nat :=
  let udiv := usart_init_udiv brd
  let intdiv := udiv &&& 0xfff0
  let fradiv := udiv &&& 0xf
  (USART_BAUD_FRADIV ||| USART_BAUD_INTDIV) &&& (intdiv ||| fradiv)

/-! ## gpio_peripheral (`src/gd32/gd32f30x_gpio.c`) -/

/-- Values and macros that `gpio_peripheral` takes from headers outside the
sources: the pin mode codes, the two speed codes, `GPIO_MODE_MASK(n)`,
`GPIO_MODE_SET(n, mode)`, `GPIO2PORT(gpio)` and `GPIO2BIT(gpio)`. -/
structure PinHeader where
  GPIO_MODE_AIN : Nat
  GPIO_MODE_IN_FLOATING : Nat
  GPIO_MODE_IPD : Nat
  GPIO_MODE_IPU : Nat
  GPIO_MODE_OUT_OD : Nat
  GPIO_MODE_OUT_PP : Nat
  GPIO_MODE_AF_OD : Nat
  GPIO_MODE_AF_PP : Nat
  GPIO_OSPEED_50MHZ : Nat
  GPIO_OSPEED_MAX : Nat
  GPIO_MODE_MASK : Nat → Nat
  GPIO_MODE_SET : Nat → Nat → Nat
  GPIO2PORT : Nat → Nat
  GPIO2BIT : Nat → Nat

/-- What `gpio_peripheral` does to the hardware and the firmware.  A port is
named by its index into `gpio_port_base` and `gpio_pclk`. -/
inductive PinEff where
  /-- The call `enable_pclock(gpio_pclk[port])`. -/
  | enable_pclock (port : Nat)
  /-- A call `shutdown(msg)`, which does not return. -/
  | shutdown (msg : String)
  /-- The statement `GPIOx_SPD(gpio_periph) |= pin`. -/
  | spd_set (port pin : Nat)
  /-- A store to `GPIO_CTL0(gpio_periph)`. -/
  | ctl0_write (port value : Nat)
  /-- A store to `GPIO_CTL1(gpio_periph)`. -/
  | ctl1_write (port value : Nat)
  /-- A store to `GPIO_BC(gpio_periph)`. -/
  | bc_write (port value : Nat)
  /-- A store to `GPIO_BOP(gpio_periph)`. -/
  | bop_write (port value : Nat)
deriving DecidableEq, Repr

/-- The two mode registers `GPIO_CTL0` and `GPIO_CTL1` of one port. -/
structure PortRegs where
  ctl0 : Nat
  ctl1 : Nat
deriving DecidableEq, Repr

/-- The selection of the pin mode at the head of `gpio_peripheral`: the pin
mode for `otype` 0 to 3, and `none` where the code calls `shutdown`. -/
def select_pinmode (hdr : PinHeader) (otype pull_up : Nat) : Option Nat :=
  if otype = 0 then
    if pull_up = 1 then some hdr.GPIO_MODE_OUT_PP else some hdr.GPIO_MODE_OUT_OD
  else if otype = 1 then
    if pull_up = 0 then some hdr.GPIO_MODE_IPD
    else if pull_up = 1 then some hdr.GPIO_MODE_IPU
    else some hdr.GPIO_MODE_IN_FLOATING
  else if otype = 2 then some hdr.GPIO_MODE_AIN
  else if otype = 3 then
    if pull_up = 0 then some hdr.GPIO_MODE_AF_OD else some hdr.GPIO_MODE_AF_PP
  else none

/-- The mode bits and the speed: `temp_mode = pinmode & 0x0F`, and for an
output mode (`pinmode & 0x10`) the speed is or-ed in, with a store to the SPD
register at the maximum speed.  The speed is `GPIO_OSPEED_50MHZ`. -/
def speed_bits (hdr : PinHeader) (port pin pinmode : Nat) : Nat × List PinEff :=
  if pinmode &&& 0x10 ≠ 0 then
    if hdr.GPIO_OSPEED_MAX = hdr.GPIO_OSPEED_50MHZ then
      ((pinmode &&& 0x0F) ||| 0x03, [PinEff.spd_set port pin])
    else
      (((pinmode &&& 0x0F) ||| hdr.GPIO_OSPEED_50MHZ) % U32, [])
  else
    (pinmode &&& 0x0F, [])

/-- The register value `(reg & ~GPIO_MODE_MASK(n)) | GPIO_MODE_SET(n, temp_mode)`
in `uint32_t` arithmetic. -/
def mode_bits (hdr : PinHeader) (reg n temp_mode : Nat) : Nat :=
  ((reg &&& (U32 - 1 - hdr.GPIO_MODE_MASK n % U32)) ||| hdr.GPIO_MODE_SET n temp_mode) % U32

/-- The store to `GPIO_BC` for a pull-down input, to `GPIO_BOP` for a
pull-up input, of the pin's bit. -/
def pull_store (hdr : PinHeader) (port pin pinmode i : Nat) : List PinEff :=
  if hdr.GPIO_MODE_IPD = pinmode then [PinEff.bc_write port ((1 <<< i) &&& pin)]
  else if hdr.GPIO_MODE_IPU = pinmode then [PinEff.bop_write port ((1 <<< i) &&& pin)]
  else []

/-- The loop `for(i = 0U; i < 8U; i++)` over the low pins, run for the
indices in `idx`. -/
def program_low (hdr : PinHeader) (port pin pinmode temp_mode : Nat) :
    List Nat → PortRegs → PortRegs × List PinEff
  | [], regs => (regs, [])
  | i :: rest, regs =>
    if (1 <<< i) &&& pin ≠ 0 then
      let reg := mode_bits hdr regs.ctl0 i temp_mode
      let r := program_low hdr port pin pinmode temp_mode rest { regs with ctl0 := reg }
      (r.1, pull_store hdr port pin pinmode i ++ [PinEff.ctl0_write port reg] ++ r.2)
    else
      program_low hdr port pin pinmode temp_mode rest regs

/-- The loop `for(i = 8U; i < 16U; i++)` over the high pins, run for the
indices in `idx`. -/
def program_high (hdr : PinHeader) (port pin pinmode temp_mode : Nat) :
    List Nat → PortRegs → PortRegs × List PinEff
  | [], regs => (regs, [])
  | i :: rest, regs =>
    if (1 <<< i) &&& pin ≠ 0 then
      let reg := mode_bits hdr regs.ctl1 (i - 8) temp_mode
      let r := program_high hdr port pin pinmode temp_mode rest { regs with ctl1 := reg }
      (r.1, pull_store hdr port pin pinmode i ++ [PinEff.ctl1_write port reg] ++ r.2)
    else
      program_high hdr port pin pinmode temp_mode rest regs

/-- The part of `gpio_peripheral` after the pin mode is chosen: speed, then
the two loops over the pins. -/
def program_pins (hdr : PinHeader) (port pin pinmode : Nat) (regs : PortRegs) :
    PortRegs × List PinEff :=
  let s := speed_bits hdr port pin pinmode
  let lo := program_low hdr port pin pinmode s.1 [0, 1, 2, 3, 4, 5, 6, 7] regs
  let hi := program_high hdr port pin pinmode s.1 [8, 9, 10, 11, 12, 13, 14, 15] lo.1
  (hi.1, s.2 ++ lo.2 ++ hi.2)

/-- The function `gpio_peripheral(gpio, otype, pull_up)` on the mode
registers of the owning port: the port's clock is enabled, the pin mode is
chosen or the firmware shut down, and the mode is programmed. -/
def gpio_peripheral (hdr : PinHeader) (gpio_pin otype pull_up : Nat) (regs : PortRegs) :
    PortRegs × List PinEff :=
  let port := hdr.GPIO2PORT gpio_pin
  let pin := hdr.GPIO2BIT gpio_pin % 65536
  match select_pinmode hdr otype pull_up with
  | none => (regs, [PinEff.enable_pclock port, PinEff.shutdown "gpio initialize fail"])
  | some pinmode =>
    ((program_pins hdr port pin pinmode regs).1,
      PinEff.enable_pclock port :: (program_pins hdr port pin pinmode regs).2)

/-- Whether an effect programs the mode of a pin: a store to the speed or a
mode register, or to the set and clear registers. -/
def programs_mode : PinEff → Bool
  | PinEff.enable_pclock _ => false
  | PinEff.shutdown _ => false
  | _ => true

/-- The header values of the GD32F30x firmware library. -/
def demo_header : PinHeader :=
  { GPIO_MODE_AIN := 0x00, GPIO_MODE_IN_FLOATING := 0x04, GPIO_MODE_IPD := 0x28,
    GPIO_MODE_IPU := 0x48, GPIO_MODE_OUT_OD := 0x14, GPIO_MODE_OUT_PP := 0x10,
    GPIO_MODE_AF_OD := 0x1C, GPIO_MODE_AF_PP := 0x18,
    GPIO_OSPEED_50MHZ := 0x03, GPIO_OSPEED_MAX := 0x04,
    GPIO_MODE_MASK := fun n => 0xF <<< (4 * n),
    GPIO_MODE_SET := fun n mode => (mode <<< (4 * n)) % U32,
    GPIO2PORT := fun p => p / 16,
    GPIO2BIT := fun p => 1 <<< (p % 16) }

/-! ## Sample runs with a report still pending -/

/-- The hardware inputs of a run after `demo_sent`: the byte goes out, then
the peer stays silent until the 1 s timeout has passed. -/
def demo_timeout_run : List EventIn :=
  [demo_ready 7100, demo_silence 200000000]

/-- The channel of `demo_sent` after its timeout fired and before the report
task has run, with a second send of the byte `7` at tick 200001000. -/
def demo_retry : Out :=
  command_transparent_send demo_board 1 [7] 1000 200001000
    (run_events demo_board demo_sent.g demo_sent.t demo_timeout_run).1
    (run_events demo_board demo_sent.g demo_sent.t demo_timeout_run).2

/-- The state of `demo_retry` after its byte went out: the channel has just
entered RECEIVE. -/
def demo_late_receiving : Globals × transparent_s :=
  run_events demo_board demo_retry.g demo_retry.t [demo_ready 200002000]

/-- The peer's frame `1, 2, 2, 9, 7`, one byte per invocation. -/
def demo_frame : List EventIn :=
  [demo_byte 200003000 1, demo_byte 200004000 2, demo_byte 200005000 2,
    demo_byte 200006000 9, demo_byte 200007000 7]

/-- The hardware inputs of a run after `demo_sent`: the byte goes out, then
the peer answers the complete frame `1, 2, 0`. -/
def demo_answered : List EventIn :=
  [demo_ready 7100, demo_byte 7200 1, demo_byte 7300 2, demo_byte 7400 0]

/-- The hardware inputs of a run in which the transmitter takes three bytes
and the peer then stays silent for more than 35 s of a 120 MHz clock. -/
def demo_long_silence : List EventIn :=
  [demo_ready 7100, demo_ready 7200, demo_ready 7300, demo_silence 1000000000,
    demo_silence 2000000000, demo_silence 3000000000, demo_silence 4200000000]

/-! ## Machine arithmetic and single steps -/

set_option maxRecDepth 100000 in
theorem flag_bits_fin : ∀ f : Fin 256,
    (clear_bits f.val START_TX ||| START_RX < 256) ∧
    ((clear_bits f.val START_TX ||| START_RX) &&& START_RX = START_RX) ∧
    (f.val &&& RX_TIMEOUT = 0 → (clear_bits f.val START_TX ||| START_RX) &&& RX_TIMEOUT = 0) ∧
    (clear_bits f.val START_RX ||| START_REPORT < 256) ∧
    ((clear_bits f.val START_RX ||| START_REPORT) &&& START_RX = 0) ∧
    ((clear_bits f.val START_RX ||| START_REPORT) &&& START_REPORT = START_REPORT) ∧
    (f.val &&& RX_TIMEOUT = 0 →
      (clear_bits f.val START_RX ||| START_REPORT) &&& RX_TIMEOUT = 0) := by
  decide

theorem flag_bits (f : Nat) (h : f < 256) :
    (clear_bits f START_TX ||| START_RX < 256) ∧
    ((clear_bits f START_TX ||| START_RX) &&& START_RX = START_RX) ∧
    (f &&& RX_TIMEOUT = 0 → (clear_bits f START_TX ||| START_RX) &&& RX_TIMEOUT = 0) ∧
    (clear_bits f START_RX ||| START_REPORT < 256) ∧
    ((clear_bits f START_RX ||| START_REPORT) &&& START_RX = 0) ∧
    ((clear_bits f START_RX ||| START_REPORT) &&& START_REPORT = START_REPORT) ∧
    (f &&& RX_TIMEOUT = 0 →
      (clear_bits f START_RX ||| START_REPORT) &&& RX_TIMEOUT = 0) :=
  flag_bits_fin ⟨f, h⟩

@[simp] theorem rx_seconds_dataIndx (brd : Board) (inp : EventIn) (rx : buffer_s) :
    (rx_seconds brd inp rx).dataIndx = rx.dataIndx := by
  unfold rx_seconds; split_ifs <;> rfl

@[simp] theorem rx_seconds_expLen (brd : Board) (inp : EventIn) (rx : buffer_s) :
    (rx_seconds brd inp rx).expLen = rx.expLen := by
  unfold rx_seconds; split_ifs <;> rfl

@[simp] theorem tx_block_ret (inp : EventIn) (g : Globals) (t : transparent_s) (tr : List Eff) :
    (tx_block inp g t tr).ret = sf.SF_RESCHEDULE := by
  simp only [tx_block]; split_ifs <;> rfl

@[simp] theorem tx_block_g (inp : EventIn) (g : Globals) (t : transparent_s) (tr : List Eff) :
    (tx_block inp g t tr).g = g := by
  simp only [tx_block]; split_ifs <;> rfl

@[simp] theorem tx_block_rx_dataIndx (inp : EventIn) (g : Globals) (t : transparent_s)
    (tr : List Eff) : (tx_block inp g t tr).t.rxBuf.dataIndx = t.rxBuf.dataIndx := by
  simp only [tx_block]; split_ifs <;> rfl

@[simp] theorem tx_block_rx_expLen (inp : EventIn) (g : Globals) (t : transparent_s)
    (tr : List Eff) : (tx_block inp g t tr).t.rxBuf.expLen = t.rxBuf.expLen := by
  simp only [tx_block]; split_ifs <;> rfl

theorem tx_block_flag (inp : EventIn) (g : Globals) (t : transparent_s) (tr : List Eff)
    (h : t.flag < 256) :
    (tx_block inp g t tr).t.flag < 256 ∧
    (t.flag &&& START_RX = START_RX → (tx_block inp g t tr).t.flag &&& START_RX = START_RX) ∧
    (t.flag &&& RX_TIMEOUT = 0 → (tx_block inp g t tr).t.flag &&& RX_TIMEOUT = 0) := by
  have hb := flag_bits t.flag h
  simp only [tx_block]
  split_ifs <;> simp_all

/-- The receive branch with a byte ready and no timeout, away from the
length byte: store, then `rx_advance`. -/
theorem event_intake_plain (brd : Board) (inp : EventIn) (g : Globals) (t : transparent_s)
    (hrx : t.flag &&& START_RX = START_RX) (hto : timeout_fires brd inp t = false)
    (hrb : inp.rbne = true) (hk : t.rxBuf.dataIndx ≠ 2) :
    transparent_event brd inp g t =
      rx_advance inp { g with rxBuf := g.rxBuf.set t.rxBuf.dataIndx (rx_byte inp.data) }
        { t with
          timer := { t.timer with
            waketime := add32 t.timer.waketime (TRANSPARENT_POLLING_PERIOD_TICKS brd) },
          rxBuf := rx_seconds brd inp t.rxBuf }
        [Eff.uart_read (rx_byte inp.data), Eff.rx_store t.rxBuf.dataIndx (rx_byte inp.data)] := by
  unfold timeout_fires at hto
  simp [transparent_event, hrx, hto, hrb, hk]

/-- The receive branch at the length byte, when the length fits. -/
theorem event_intake_header (brd : Board) (inp : EventIn) (g : Globals) (t : transparent_s)
    (hrx : t.flag &&& START_RX = START_RX) (hto : timeout_fires brd inp t = false)
    (hrb : inp.rbne = true) (hk : t.rxBuf.dataIndx = 2) (hlen : 2 < g.rxBuf.length)
    (hfit : (rx_byte inp.data + 3) % 256 ≤ 60) :
    transparent_event brd inp g t =
      rx_advance inp { g with rxBuf := g.rxBuf.set 2 (rx_byte inp.data) }
        { t with
          timer := { t.timer with
            waketime := add32 t.timer.waketime (TRANSPARENT_POLLING_PERIOD_TICKS brd) },
          rxBuf := { rx_seconds brd inp t.rxBuf with expLen := (rx_byte inp.data + 3) % 256 } }
        [Eff.uart_read (rx_byte inp.data), Eff.rx_store 2 (rx_byte inp.data)] := by
  unfold timeout_fires at hto
  have hfit2 : ¬ 60 < (rx_byte inp.data + 3) % 256 := by omega
  simp [transparent_event, hrx, hto, hrb, hk, hlen, TRANSPARENT_DATA_LEN_MAX, hfit2]

/-- The receive branch at the length byte, when the length does not fit. -/
theorem event_intake_overflow (brd : Board) (inp : EventIn) (g : Globals) (t : transparent_s)
    (hrx : t.flag &&& START_RX = START_RX) (hto : timeout_fires brd inp t = false)
    (hrb : inp.rbne = true) (hk : t.rxBuf.dataIndx = 2) (hlen : 2 < g.rxBuf.length)
    (hbig : 60 < (rx_byte inp.data + 3) % 256) :
    transparent_event brd inp g t =
      { g := { g with rxBuf := g.rxBuf.set 2 (rx_byte inp.data), transparent_wake := true },
        t := { t with
          timer := { t.timer with
            waketime := add32 t.timer.waketime (TRANSPARENT_POLLING_PERIOD_TICKS brd) },
          rxBuf := { dataIndx := 0, expLen := 0, startTime := 0, timeoutS := 0, timeoutUs := 0 },
          flag := RX_TIMEOUT },
        ret := sf.SF_DONE,
        trace := [Eff.uart_read (rx_byte inp.data), Eff.rx_store 2 (rx_byte inp.data),
          Eff.wake] } := by
  unfold timeout_fires at hto
  simp [transparent_event, hrx, hto, hrb, hk, hlen, TRANSPARENT_DATA_LEN_MAX, hbig]

/-- The byte intake completes the frame. -/
theorem rx_advance_done (inp : EventIn) (g : Globals) (t : transparent_s) (tr : List Eff)
    (h0 : t.rxBuf.expLen ≠ 0) (hge : t.rxBuf.expLen ≤ (t.rxBuf.dataIndx + 1) % 256) :
    rx_advance inp g t tr =
      { g := { g with transparent_wake := true },
        t := { t with
          rxBuf := { t.rxBuf with
            dataIndx := (t.rxBuf.dataIndx + 1) % 256, startTime := inp.now_rx },
          flag := clear_bits t.flag START_RX ||| START_REPORT },
        ret := sf.SF_DONE, trace := tr ++ [Eff.wake] } := by
  simp [rx_advance, h0, hge]

/-- The byte intake leaves the frame open. -/
theorem rx_advance_open (inp : EventIn) (g : Globals) (t : transparent_s) (tr : List Eff)
    (h : t.rxBuf.expLen = 0 ∨ (t.rxBuf.dataIndx + 1) % 256 < t.rxBuf.expLen) :
    rx_advance inp g t tr =
      tx_block inp g
        { t with rxBuf := { t.rxBuf with
            dataIndx := (t.rxBuf.dataIndx + 1) % 256, startTime := inp.now_rx } } tr := by
  have : ¬ (t.rxBuf.expLen ≠ 0 ∧ t.rxBuf.expLen ≤ (t.rxBuf.dataIndx + 1) % 256) := by
    rcases h with h | h
    · simp [h]
    · intro hc; omega
  simp only [rx_advance, ge_iff_le]
  rw [if_neg this]

/-- One byte of a frame that does not complete it. -/
theorem event_rx_step (brd : Board) (inp : EventIn) (g : Globals) (t : transparent_s)
    (L k : Nat) (hinv : receiving L k g t) (hk : k + 1 < L) (hL : L ≤ 60)
    (hrb : inp.rbne = true) (hto : timeout_fires brd inp t = false)
    (hhdr : k = 2 → rx_byte inp.data + 3 = L) :
    (transparent_event brd inp g t).ret = sf.SF_RESCHEDULE ∧
    receiving L (k + 1) (transparent_event brd inp g t).g (transparent_event brd inp g t).t ∧
    (transparent_event brd inp g t).g.rxBuf = g.rxBuf.set k (rx_byte inp.data) := by
  obtain ⟨h1, h2, h3, h4, h5, h6, h7⟩ := hinv
  by_cases hk2 : k = 2
  · subst hk2
    have hb := hhdr rfl
    have he : (rx_byte inp.data + 3) % 256 = L := by omega
    rw [event_intake_header brd inp g t h2 hto hrb h5 (by omega) (by omega),
      rx_advance_open _ _ _ _ (Or.inr (by simp [h5, he]; omega))]
    refine ⟨by simp, ?_, by simp⟩
    have hf := tx_block_flag inp { g with rxBuf := g.rxBuf.set 2 (rx_byte inp.data) }
      { t with
          timer := { t.timer with
            waketime := add32 t.timer.waketime (TRANSPARENT_POLLING_PERIOD_TICKS brd) },
          rxBuf := { rx_seconds brd inp t.rxBuf with
            expLen := (rx_byte inp.data + 3) % 256,
            dataIndx := ((rx_seconds brd inp t.rxBuf).dataIndx + 1) % 256,
            startTime := inp.now_rx } }
      [Eff.uart_read (rx_byte inp.data), Eff.rx_store 2 (rx_byte inp.data)] h1
    exact ⟨hf.1, hf.2.1 h2, hf.2.2 h3, by simp [h4], by simp [h5], by intro h; omega,
      by intro _; simp [he]⟩
  · have hopen : (rx_seconds brd inp t.rxBuf).expLen = 0 ∨
        ((rx_seconds brd inp t.rxBuf).dataIndx + 1) % 256 <
          (rx_seconds brd inp t.rxBuf).expLen := by
      simp only [rx_seconds_expLen, rx_seconds_dataIndx]
      by_cases hk3 : k ≤ 2
      · exact Or.inl (h6 hk3)
      · right; rw [h7 (by omega), h5]; omega
    rw [event_intake_plain brd inp g t h2 hto hrb (by omega),
      rx_advance_open _ _ _ _ (by simpa using hopen)]
    refine ⟨by simp, ?_, by simp [h5]⟩
    have hf := tx_block_flag inp { g with rxBuf := g.rxBuf.set t.rxBuf.dataIndx (rx_byte inp.data) }
      { t with
          timer := { t.timer with
            waketime := add32 t.timer.waketime (TRANSPARENT_POLLING_PERIOD_TICKS brd) },
          rxBuf := { rx_seconds brd inp t.rxBuf with
            dataIndx := ((rx_seconds brd inp t.rxBuf).dataIndx + 1) % 256,
            startTime := inp.now_rx } }
      [Eff.uart_read (rx_byte inp.data), Eff.rx_store t.rxBuf.dataIndx (rx_byte inp.data)] h1
    refine ⟨hf.1, hf.2.1 h2, hf.2.2 h3, by simp [h4], ?_, ?_, ?_⟩
    · simp [h5]; omega
    · intro h; simp; exact h6 (by omega)
    · intro h; simp
      by_cases hk3 : k ≤ 2
      · omega
      · exact h7 (by omega)

/-- The byte of a frame that completes it. -/
theorem event_rx_last (brd : Board) (inp : EventIn) (g : Globals) (t : transparent_s)
    (L k : Nat) (hinv : receiving L k g t) (hk : k + 1 = L) (hL3 : 3 ≤ L) (hL : L ≤ 60)
    (hrb : inp.rbne = true) (hto : timeout_fires brd inp t = false)
    (hhdr : k = 2 → rx_byte inp.data + 3 = L) :
    (transparent_event brd inp g t).ret = sf.SF_DONE ∧
    (transparent_event brd inp g t).t.flag = clear_bits t.flag START_RX ||| START_REPORT ∧
    (transparent_event brd inp g t).g.transparent_wake = true ∧
    (transparent_event brd inp g t).t.rxBuf.expLen = L ∧
    (transparent_event brd inp g t).g.rxBuf = g.rxBuf.set k (rx_byte inp.data) := by
  obtain ⟨h1, h2, h3, h4, h5, h6, h7⟩ := hinv
  by_cases hk2 : k = 2
  · subst hk2
    have hb := hhdr rfl
    have he : (rx_byte inp.data + 3) % 256 = L := by omega
    rw [event_intake_header brd inp g t h2 hto hrb h5 (by omega) (by omega),
      rx_advance_done _ _ _ _ (by simp [he]; omega) (by simp [h5, he]; omega)]
    simp [he]
  · have hk3 : 3 ≤ k := by omega
    have he := h7 hk3
    rw [event_intake_plain brd inp g t h2 hto hrb (by omega),
      rx_advance_done _ _ _ _ (by simp [he]; omega) (by simp [h5, he]; omega)]
    simp [he, h5]

/-- The report task on a single channel whose frame is complete. -/
theorem task_single_report (oid : Nat) (g : Globals) (t : transparent_s)
    (hw : g.transparent_wake = true) (hnt : t.flag &&& RX_TIMEOUT = 0)
    (hrep : t.flag &&& START_REPORT ≠ 0) :
    (transparent_task { g := g, objs := [(oid, t)] }).2 =
      [Eff.response oid t.rxBuf.expLen (g.rxBuf.take t.rxBuf.expLen), Eff.del_timer] := by
  simp [transparent_task, hw, task_loop, transparent_task_body, hnt, hrep]

theorem take_set_succ (l : List Nat) (k b : Nat) (h : k < l.length) :
    (l.set k b).take (k + 1) = l.take k ++ [b] := by
  have hl : (l.take k).length = k := by simp; omega
  rw [List.set_eq_take_append_cons_drop, if_pos h, List.take_append_eq_append_take, hl]
  simp [List.take_of_length_le (Nat.le_succ_of_le (Nat.le_of_eq hl))]

/-- A frame of total length `L`, of which `k` bytes are already stored, is
received to its end by polling once per remaining byte. -/
theorem poll_frame (brd : Board) (L : Nat) (hL3 : 3 ≤ L) (hL : L ≤ 60) :
    ∀ (rest : List EventIn) (k : Nat) (g : Globals) (t : transparent_s),
      receiving L k g t → k + rest.length = L → rest ≠ [] →
      (∀ i ∈ rest, i.rbne = true) → no_timeout brd g t rest →
      (∀ j i, rest[j]? = some i → k + j = 2 → rx_byte i.data + 3 = L) →
      (∀ j o, j + 1 < rest.length → (poll brd g t rest)[j]? = some o →
        o.ret = sf.SF_RESCHEDULE ∧ o.t.flag &&& START_RX = START_RX ∧
          o.t.flag &&& RX_TIMEOUT = 0) ∧
      ∃ o, (poll brd g t rest)[rest.length - 1]? = some o ∧ o.ret = sf.SF_DONE ∧
        o.t.flag &&& START_RX = 0 ∧ o.t.flag &&& START_REPORT = START_REPORT ∧
        o.t.flag &&& RX_TIMEOUT = 0 ∧ o.g.transparent_wake = true ∧
        o.t.rxBuf.expLen = L ∧
        o.g.rxBuf.take L = g.rxBuf.take k ++ rest.map (fun i => rx_byte i.data) := by
  intro rest
  induction rest with
  | nil => intro k g t _ _ h; exact absurd rfl h
  | cons inp rest ih =>
    intro k g t hinv hlen _ hrb hq hhdr
    have hrb0 : inp.rbne = true := hrb inp (List.mem_cons_self _ _)
    have hq0 : timeout_fires brd inp t = false := hq.1
    have hh0 : k = 2 → rx_byte inp.data + 3 = L := fun h => hhdr 0 inp (by simp) (by omega)
    have hklen : k < g.rxBuf.length := by
      have := hinv.len
      simp only [List.length_cons] at hlen
      omega
    by_cases hnil : rest = []
    · subst hnil
      simp only [List.length_cons, List.length_nil] at hlen
      obtain ⟨e1, e2, e3, e4, e5⟩ := event_rx_last brd inp g t L k hinv hlen hL3 hL hrb0 hq0 hh0
      have hb := flag_bits t.flag hinv.flag_lt
      refine ⟨fun j o hj => by simp at hj, transparent_event brd inp g t, by simp [poll],
        e1, ?_, ?_, ?_, e3, e4, ?_⟩
      · rw [e2]; exact hb.2.2.2.2.1
      · rw [e2]; exact hb.2.2.2.2.2.1
      · rw [e2]; exact hb.2.2.2.2.2.2 hinv.no_to
      · rw [e5, ← hlen, take_set_succ _ _ _ hklen]; rfl
    · have hpos : 0 < rest.length := List.length_pos.mpr hnil
      simp only [List.length_cons] at hlen
      obtain ⟨e1, e2, e3⟩ :=
        event_rx_step brd inp g t L k hinv (by omega) hL hrb0 hq0 hh0
      obtain ⟨ih1, o, io1, io2, io3, io4, io5, io6, io7, io8⟩ :=
        ih (k + 1) _ _ e2 (by omega) hnil
          (fun i hi => hrb i (List.mem_cons_of_mem _ hi)) hq.2
          (fun j i hj hk => hhdr (j + 1) i (by simpa using hj) (by omega))
      refine ⟨?_, o, ?_, io2, io3, io4, io5, io6, io7, ?_⟩
      · intro j o' hj ho'
        cases j with
        | zero =>
          simp only [poll, List.getElem?_cons_zero, Option.some.injEq] at ho'
          subst ho'
          exact ⟨e1, e2.rx_set, e2.no_to⟩
        | succ j =>
          simp only [poll, List.getElem?_cons_succ] at ho'
          exact ih1 j o' (by simpa using hj) ho'
      · have : (inp :: rest).length - 1 = (rest.length - 1) + 1 := by
          simp only [List.length_cons]; omega
        rw [this]
        simpa only [poll, List.getElem?_cons_succ] using io1
      · rw [io8, e3, take_set_succ _ _ _ hklen]
        simp

/-- Reception with no timeout report pending.  A well-formed frame `f` (length
`L` between 3 and 60, `f[2] = L - 3`) delivered byte by byte to a channel that
has just entered RECEIVE with RX_TIMEOUT clear (START_RX set, cursor 0,
expected length 0), one ready byte per invocation and no timeout firing: the
first `L - 1` invocations of `transparent_event` return SF_RESCHEDULE and stay
in RECEIVE, invocation `L` clears START_RX, sets START_REPORT and returns
SF_DONE, and the following `transparent_task` emits one response with byte
count `f[2] + 3 = L` and bytes `f`. -/
theorem frame_received_and_reported (brd : Board) (oid : Nat) (g : Globals) (t : transparent_s)
    (ins : List EventIn) (f : List Nat)
    (hbytes : ins.map (fun i => rx_byte i.data) = f)
    (hstore : g.rxBuf.length = TRANSPARENT_DATA_LEN_MAX)
    (hflag : t.flag < 256)
    (hrx : t.flag &&& START_RX = START_RX) (hnt : t.flag &&& RX_TIMEOUT = 0)
    (hidx : t.rxBuf.dataIndx = 0) (hexp : t.rxBuf.expLen = 0)
    (hL3 : 3 ≤ f.length) (hL60 : f.length ≤ TRANSPARENT_DATA_LEN_MAX)
    (hhdr : f[2]? = some (f.length - 3))
    (hready : ∀ i ∈ ins, i.rbne = true)
    (hquiet : no_timeout brd g t ins) :
    (poll brd g t ins).length = f.length ∧
    (∀ k o, k + 1 < f.length → (poll brd g t ins)[k]? = some o →
      o.ret = sf.SF_RESCHEDULE ∧ o.t.flag &&& START_RX = START_RX ∧
        o.t.flag &&& RX_TIMEOUT = 0) ∧
    ∃ o, (poll brd g t ins)[f.length - 1]? = some o ∧ o.ret = sf.SF_DONE ∧
      o.t.flag &&& START_RX = 0 ∧ o.t.flag &&& START_REPORT = START_REPORT ∧
      f.getD 2 0 + 3 = f.length ∧
      (transparent_task { g := o.g, objs := [(oid, o.t)] }).2 =
        [Eff.response oid (f.getD 2 0 + 3) f, Eff.del_timer] := by
  have hlen : ins.length = f.length := by rw [← hbytes]; simp
  have hpl : ∀ (l : List EventIn) (g : Globals) (t : transparent_s),
      (poll brd g t l).length = l.length := by
    intro l
    induction l with
    | nil => intro g t; rfl
    | cons a l ih => intro g t; simp [poll, ih]
  have hinv : receiving f.length 0 g t :=
    ⟨hflag, hrx, hnt, hstore, hidx, fun _ => hexp, fun h => absurd h (by omega)⟩
  have hne : ins ≠ [] := by
    intro h; rw [h] at hlen; simp at hlen; omega
  have hh : ∀ j i, ins[j]? = some i → 0 + j = 2 → rx_byte i.data + 3 = f.length := by
    intro j i hj h2
    have hj2 : j = 2 := by omega
    subst hj2
    have : f[2]? = some (rx_byte i.data) := by
      rw [← hbytes, List.getElem?_map, hj]; rfl
    rw [this] at hhdr
    have := Option.some.inj hhdr
    omega
  obtain ⟨p1, o, q1, q2, q3, q4, q5, q6, q7, q8⟩ :=
    poll_frame brd f.length hL3 hL60 ins 0 g t hinv (by omega) hne hready hquiet hh
  have hf2 : f.getD 2 0 + 3 = f.length := by
    rw [List.getD_eq_getElem?_getD, hhdr]; simp; omega
  refine ⟨by rw [hpl, hlen], ?_, o, ?_, q2, q3, q4, hf2, ?_⟩
  · intro k o' hk ho'
    exact p1 k o' (by omega) ho'
  · rw [← hlen]; exact q1
  · rw [task_single_report oid o.g o.t q6 q5 (by rw [q4]; decide), q7, q8, hf2, hbytes]
    simp

/-- Reception of the frame `[1, 2, 2, 9, 7]` with no timeout report pending. -/
theorem frame_received_and_reported_witness :
    (poll demo_board demo_globals demo_receiving
      [demo_byte 2000 1, demo_byte 3000 2, demo_byte 4000 2, demo_byte 5000 9,
        demo_byte 6000 7]).map (fun o => o.ret) =
      [sf.SF_RESCHEDULE, sf.SF_RESCHEDULE, sf.SF_RESCHEDULE, sf.SF_RESCHEDULE, sf.SF_DONE] ∧
    ∃ o, (poll demo_board demo_globals demo_receiving
      [demo_byte 2000 1, demo_byte 3000 2, demo_byte 4000 2, demo_byte 5000 9,
        demo_byte 6000 7])[4]? = some o ∧
      (transparent_task { g := o.g, objs := [(7, o.t)] }).2 =
        [Eff.response 7 5 [1, 2, 2, 9, 7], Eff.del_timer] := by
  have h := frame_received_and_reported demo_board 7 demo_globals demo_receiving
    [demo_byte 2000 1, demo_byte 3000 2, demo_byte 4000 2, demo_byte 5000 9, demo_byte 6000 7]
    [1, 2, 2, 9, 7] (by decide) (by decide) (by decide) (by decide) (by decide) rfl rfl
    (by decide) (by decide) (by decide) (by decide)
    ⟨by decide, by decide, by decide, by decide, by decide, trivial⟩
  refine ⟨by decide, ?_⟩
  obtain ⟨_, _, o, h1, _, _, _, _, h2⟩ := h
  exact ⟨o, h1, h2⟩

/-! ## Overflow, timeout, send and report -/

theorem tx_block_trace (inp : EventIn) (g : Globals) (t : transparent_s) (tr : List Eff) :
    (tx_block inp g t tr).trace = tr ∨
      (tx_block inp g t tr).trace = tr ++ [Eff.uart_write (g.txBuf.getD t.txBuf.dataIndx 0)] := by
  simp only [tx_block]; split_ifs <;> simp

/-- What holds of the length check: a length byte `v` with `58 ≤ v ≤ 252`
ends the transaction as a timeout with all receive state zeroed. -/
theorem overflow_signalled (brd : Board) (inp : EventIn) (g : Globals) (t : transparent_s)
    (hrx : t.flag &&& START_RX = START_RX) (hto : timeout_fires brd inp t = false)
    (hrb : inp.rbne = true) (hk : t.rxBuf.dataIndx = 2) (hlen : 2 < g.rxBuf.length)
    (hlo : 58 ≤ rx_byte inp.data) (hhi : rx_byte inp.data ≤ 252) :
    (transparent_event brd inp g t).ret = sf.SF_DONE ∧
    (transparent_event brd inp g t).t.flag = RX_TIMEOUT ∧
    (transparent_event brd inp g t).t.rxBuf =
      { dataIndx := 0, expLen := 0, timeoutS := 0, timeoutUs := 0, startTime := 0 } := by
  rw [event_intake_overflow brd inp g t hrx hto hrb hk hlen (by omega)]
  simp

/-- C2, evaluated at the length byte 253: the sum `253 + 3` wraps to 0 in the
`uint8_t` field `expLen`, the test `expLen > 60` fails, and the invocation goes
on receiving: it returns SF_RESCHEDULE, START_RX stays set, RX_TIMEOUT stays
clear, the cursor advances to 3 with expected length 0 and the task is not
woken. -/
theorem length_byte_253_not_rejected (brd : Board) (inp : EventIn) (g : Globals)
    (t : transparent_s) (hflag : t.flag < 256)
    (hrx : t.flag &&& START_RX = START_RX) (hnt : t.flag &&& RX_TIMEOUT = 0)
    (hto : timeout_fires brd inp t = false) (hrb : inp.rbne = true)
    (hk : t.rxBuf.dataIndx = 2) (hlen : g.rxBuf.length = TRANSPARENT_DATA_LEN_MAX)
    (hv : rx_byte inp.data = 253) :
    (transparent_event brd inp g t).ret = sf.SF_RESCHEDULE ∧
    (transparent_event brd inp g t).t.flag &&& START_RX = START_RX ∧
    (transparent_event brd inp g t).t.flag &&& RX_TIMEOUT = 0 ∧
    (transparent_event brd inp g t).t.rxBuf.dataIndx = 3 ∧
    (transparent_event brd inp g t).t.rxBuf.expLen = 0 ∧
    (transparent_event brd inp g t).g.transparent_wake = g.transparent_wake ∧
    Eff.wake ∉ (transparent_event brd inp g t).trace := by
  have hl : 2 < g.rxBuf.length := by rw [hlen]; decide
  rw [event_intake_header brd inp g t hrx hto hrb hk hl (by rw [hv]; decide),
    rx_advance_open _ _ _ _ (Or.inl (by simp [hv]))]
  have hf := tx_block_flag inp { g with rxBuf := g.rxBuf.set 2 (rx_byte inp.data) }
    { t with
        timer := { t.timer with
          waketime := add32 t.timer.waketime (TRANSPARENT_POLLING_PERIOD_TICKS brd) },
        rxBuf := { rx_seconds brd inp t.rxBuf with
          expLen := (rx_byte inp.data + 3) % 256,
          dataIndx := ((rx_seconds brd inp t.rxBuf).dataIndx + 1) % 256,
          startTime := inp.now_rx } }
    [Eff.uart_read (rx_byte inp.data), Eff.rx_store 2 (rx_byte inp.data)] hflag
  refine ⟨by simp, hf.2.1 hrx, hf.2.2 hnt, by simp [hk], by simp [hv], by simp, ?_⟩
  rcases tx_block_trace inp { g with rxBuf := g.rxBuf.set 2 (rx_byte inp.data) }
    { t with
        timer := { t.timer with
          waketime := add32 t.timer.waketime (TRANSPARENT_POLLING_PERIOD_TICKS brd) },
        rxBuf := { rx_seconds brd inp t.rxBuf with
          expLen := (rx_byte inp.data + 3) % 256,
          dataIndx := ((rx_seconds brd inp t.rxBuf).dataIndx + 1) % 256,
          startTime := inp.now_rx } }
    [Eff.uart_read (rx_byte inp.data), Eff.rx_store 2 (rx_byte inp.data)] with h | h <;>
  · rw [h]; simp

/-- C2 at 253 on a concrete channel: no overflow is signalled. -/
theorem length_byte_253_not_rejected_witness :
    (transparent_event demo_board (demo_byte 4000 253) demo_globals demo_two_stored).ret =
      sf.SF_RESCHEDULE ∧
    (transparent_event demo_board (demo_byte 4000 253) demo_globals demo_two_stored).t.flag =
      START_RX ∧
    (transparent_event demo_board (demo_byte 4000 253) demo_globals
      demo_two_stored).t.rxBuf.dataIndx = 3 := by
  have h := length_byte_253_not_rejected demo_board (demo_byte 4000 253) demo_globals
    demo_two_stored (by decide) (by decide) (by decide) (by decide) (by decide) (by decide)
    (by decide) (by decide)
  exact ⟨h.1, by decide, h.2.2.2.1⟩

set_option maxRecDepth 100000 in
theorem timeout_bits_fin : ∀ f : Fin 256,
    ((clear_bits f.val START_RX ||| RX_TIMEOUT) &&& START_RX = 0) ∧
    ((clear_bits f.val START_RX ||| RX_TIMEOUT) &&& RX_TIMEOUT = RX_TIMEOUT) := by
  decide

/-- The timeout test holds on entry: no whole second left, an activity tick,
and more ticks elapsed than the remainder allows. -/
theorem timeout_fires_of_entry (brd : Board) (inp : EventIn) (t : transparent_s)
    (hs : t.rxBuf.timeoutS = 0) (h0 : t.rxBuf.startTime ≠ 0)
    (hel : sub32 inp.now_chk t.rxBuf.startTime > brd.timer_from_us t.rxBuf.timeoutUs) :
    timeout_fires brd inp t = true := by
  simp [timeout_fires, rx_seconds, rx_timed_out, hs, h0, hel]

/-- The timeout branch of `transparent_event`. -/
theorem event_timeout (brd : Board) (inp : EventIn) (g : Globals) (t : transparent_s)
    (hrx : t.flag &&& START_RX = START_RX) (hfire : timeout_fires brd inp t = true) :
    transparent_event brd inp g t =
      { g := { g with rxBuf := zero_fill g.rxBuf t.rxBuf.expLen, transparent_wake := true },
        t := { t with
          timer := { t.timer with
            waketime := add32 t.timer.waketime (TRANSPARENT_POLLING_PERIOD_TICKS brd) },
          rxBuf := { dataIndx := 0, expLen := 0, startTime := 0, timeoutS := 0, timeoutUs := 0 },
          flag := clear_bits t.flag START_RX ||| RX_TIMEOUT },
        ret := sf.SF_DONE, trace := [Eff.wake] } := by
  unfold timeout_fires at hfire
  simp [transparent_event, hrx, hfire]

@[simp] theorem send_timeout_dataIndx (args3 : Nat) (rx : buffer_s) :
    (send_timeout args3 rx).dataIndx = rx.dataIndx := by
  unfold send_timeout; split_ifs <;> rfl

@[simp] theorem send_timeout_expLen (args3 : Nat) (rx : buffer_s) :
    (send_timeout args3 rx).expLen = rx.expLen := by
  unfold send_timeout; split_ifs <;> rfl

/-- A send on a channel that is not busy, with a length that fits. -/
theorem send_accepted (brd : Board) (args1 args3 now : Nat) (write : List Nat) (g : Globals)
    (t : transparent_s) (hidle : ¬ (t.flag &&& START_TX ≠ 0 ∨ t.flag &&& START_RX ≠ 0))
    (hlen : args1 ≤ TRANSPARENT_DATA_LEN_MAX) :
    command_transparent_send brd args1 write args3 now g t =
      { g := { g with txBuf := memcpy g.txBuf write (args1 % 256) },
        t := { timer := { waketime := add32 now (brd.timer_from_us 200), armed := true },
               txBuf := { t.txBuf with expLen := args1 % 256, dataIndx := 0 },
               rxBuf := { send_timeout args3 t.rxBuf with startTime := 0 },
               flag := t.flag ||| START_TX },
        trace := [Eff.add_timer] } := by
  have hle : ¬ TRANSPARENT_DATA_LEN_MAX < args1 := by omega
  simp only [command_transparent_send, if_neg hidle, gt_iff_lt, if_neg hle]

/-- C3: whenever `transparent_event` takes the timeout branch in RECEIVE, with
any number of bytes stored, it clears START_RX, sets RX_TIMEOUT and returns
SF_DONE; the next `transparent_task` emits one response with byte count 0 and
leaves the channel idle (flag 0, both cursors and expected lengths 0); a
`command_transparent_send` of length at most 60 is then accepted: START_TX is
set and the timer is scheduled. -/
theorem timeout_reports_zero_and_recovers (brd : Board) (inp : EventIn) (g : Globals)
    (t : transparent_s) (oid args1 args3 now : Nat) (write : List Nat)
    (hflag : t.flag < 256) (hrx : t.flag &&& START_RX = START_RX)
    (hfire : timeout_fires brd inp t = true) (hlen : args1 ≤ TRANSPARENT_DATA_LEN_MAX) :
    (transparent_event brd inp g t).ret = sf.SF_DONE ∧
    (transparent_event brd inp g t).t.flag &&& START_RX = 0 ∧
    (transparent_event brd inp g t).t.flag &&& RX_TIMEOUT = RX_TIMEOUT ∧
    ∃ g1 t1,
      transparent_task { g := (transparent_event brd inp g t).g,
                         objs := [(oid, (transparent_event brd inp g t).t)] } =
        ({ g := g1, objs := [(oid, t1)] }, [Eff.response oid 0 [], Eff.del_timer]) ∧
      t1.flag = 0 ∧ t1.txBuf.dataIndx = 0 ∧ t1.txBuf.expLen = 0 ∧
      t1.rxBuf.dataIndx = 0 ∧ t1.rxBuf.expLen = 0 ∧
      (command_transparent_send brd args1 write args3 now g1 t1).t.flag &&& START_TX =
        START_TX ∧
      (command_transparent_send brd args1 write args3 now g1 t1).trace = [Eff.add_timer] := by
  have hb := timeout_bits_fin ⟨t.flag, hflag⟩
  have hnz : (clear_bits t.flag START_RX ||| RX_TIMEOUT) &&& RX_TIMEOUT ≠ 0 := by
    rw [hb.2]; decide
  rw [event_timeout brd inp g t hrx hfire]
  refine ⟨rfl, hb.1, hb.2,
    { txBuf := g.txBuf, rxBuf := zero_fill g.rxBuf t.rxBuf.expLen, transparent_wake := false },
    { timer := { waketime := add32 t.timer.waketime (TRANSPARENT_POLLING_PERIOD_TICKS brd),
                 armed := false },
      txBuf := { t.txBuf with dataIndx := 0, expLen := 0 },
      rxBuf := { dataIndx := 0, expLen := 0, startTime := 0, timeoutS := 0, timeoutUs := 0 },
      flag := 0 }, ?_, rfl, rfl, rfl, rfl, rfl, ?_⟩
  · simp [transparent_task, task_loop, transparent_task_body, hnz, zero_fill]
  · rw [send_accepted brd args1 args3 now write _ _ (by simp) hlen]
    exact ⟨by simp [START_TX], rfl⟩

/-- C3 on a concrete channel: 1 s timeout, last activity at tick 1000, polled
at tick 130,000,000 with three bytes stored. -/
theorem timeout_reports_zero_and_recovers_witness :
    (transparent_event demo_board (demo_silence 130000000) demo_globals demo_waiting).ret =
      sf.SF_DONE ∧
    (transparent_event demo_board (demo_silence 130000000) demo_globals demo_waiting).t.flag =
      RX_TIMEOUT := by
  have h := timeout_reports_zero_and_recovers demo_board (demo_silence 130000000)
    demo_globals demo_waiting 0 3 1000 130001000 [1, 2, 0] (by decide) (by decide)
    (timeout_fires_of_entry demo_board (demo_silence 130000000) demo_waiting (by decide)
      (by decide) (by decide)) (by decide)
  exact ⟨h.1, by decide⟩

/-- C4: with START_TX or START_RX set, `command_transparent_send` changes
nothing, whatever the payload, length and timeout: channel state, both arrays
and the wake time are as before, no timer is scheduled, no response emitted
(the trace is empty). -/
theorem busy_send_is_noop (brd : Board) (args1 args3 now : Nat) (write : List Nat)
    (g : Globals) (t : transparent_s)
    (hbusy : t.flag &&& START_TX ≠ 0 ∨ t.flag &&& START_RX ≠ 0) :
    command_transparent_send brd args1 write args3 now g t = { g := g, t := t, trace := [] } := by
  simp only [command_transparent_send, if_pos hbusy]

/-- C4 on a channel in RECEIVE. -/
theorem busy_send_is_noop_witness :
    command_transparent_send demo_board 3 [1, 2, 0] 3200 7000 demo_globals demo_waiting =
      { g := demo_globals, t := demo_waiting, trace := [] } :=
  busy_send_is_noop demo_board 3 3200 7000 [1, 2, 0] demo_globals demo_waiting
    (Or.inr (by decide))

/-- No send request ever emits a response, and a send request that arrives in
TRANSMIT or RECEIVE (START_TX or START_RX set) leaves the globals and the
channel as they were. -/
theorem send_silent_and_busy_preserved (brd : Board) (args1 args3 now : Nat)
    (write : List Nat) (g : Globals) (t : transparent_s) :
    (∀ oid n bs,
      Eff.response oid n bs ∉ (command_transparent_send brd args1 write args3 now g t).trace) ∧
    ((t.flag &&& START_TX ≠ 0 ∨ t.flag &&& START_RX ≠ 0) →
      (command_transparent_send brd args1 write args3 now g t).g = g ∧
      (command_transparent_send brd args1 write args3 now g t).t = t) := by
  constructor
  · intro oid n bs
    simp only [command_transparent_send]
    split_ifs <;> simp
  · intro hbusy
    simp only [command_transparent_send, if_pos hbusy, and_self]

/-- A send request on a channel in RECEIVE changes nothing. -/
theorem send_silent_and_busy_preserved_witness :
    (command_transparent_send demo_board 3 [1, 2, 0] 3200 7000 demo_globals demo_waiting).g =
      demo_globals ∧
    (command_transparent_send demo_board 3 [1, 2, 0] 3200 7000 demo_globals demo_waiting).t =
      demo_waiting :=
  (send_silent_and_busy_preserved demo_board 3 3200 7000 [1, 2, 0] demo_globals
    demo_waiting).2 (Or.inr (by decide))

/-- C6: on a channel that is not busy, `command_transparent_send` calls
`shutdown("data is too long")` exactly when the length `args[1]` exceeds 60,
and for a length of at most 60 it calls no shutdown at all. -/
theorem send_shutdown_iff_too_long (brd : Board) (args1 args3 now : Nat) (write : List Nat)
    (g : Globals) (t : transparent_s)
    (hidle : ¬ (t.flag &&& START_TX ≠ 0 ∨ t.flag &&& START_RX ≠ 0)) :
    (Eff.shutdown "data is too long" ∈
        (command_transparent_send brd args1 write args3 now g t).trace ↔
      TRANSPARENT_DATA_LEN_MAX < args1) ∧
    (args1 ≤ TRANSPARENT_DATA_LEN_MAX →
      ∀ msg, Eff.shutdown msg ∉ (command_transparent_send brd args1 write args3 now g t).trace) := by
  by_cases h : TRANSPARENT_DATA_LEN_MAX < args1
  · simp only [command_transparent_send, if_neg hidle, gt_iff_lt, if_pos h]
    exact ⟨by simp [h], fun h' => absurd h (by omega)⟩
  · rw [send_accepted brd args1 args3 now write g t hidle (by omega)]
    exact ⟨by simp [h], fun _ msg => by simp⟩

/-- C6 on an idle channel: length 61 halts, length 60 does not. -/
theorem send_shutdown_iff_too_long_witness :
    Eff.shutdown "data is too long" ∈
      (command_transparent_send demo_board 61 (List.replicate 61 7) 100 7000 demo_globals
        demo_idle).trace ∧
    ∀ msg, Eff.shutdown msg ∉
      (command_transparent_send demo_board 60 (List.replicate 60 7) 100 7000 demo_globals
        demo_idle).trace :=
  ⟨(send_shutdown_iff_too_long demo_board 61 100 7000 (List.replicate 61 7) demo_globals
      demo_idle (by decide)).1.mpr (by decide),
   (send_shutdown_iff_too_long demo_board 60 100 7000 (List.replicate 60 7) demo_globals
      demo_idle (by decide)).2 (by decide)⟩

theorem or_and_self_bits (f m : Nat) : (f ||| m) &&& m = m := by
  apply Nat.eq_of_testBit_eq
  intro i
  simp only [Nat.testBit_and, Nat.testBit_or]
  cases f.testBit i <;> cases m.testBit i <;> rfl

theorem memcpy_length (dst src : List Nat) (n : Nat) :
    (memcpy dst src n).length = dst.length := by
  induction n with
  | zero => rfl
  | succ n ih => simp [memcpy, ih]

theorem memcpy_get (dst src : List Nat) (n i : Nat) :
    (memcpy dst src n)[i]? =
      if i < n ∧ i < dst.length then some (src.getD i 0) else dst[i]? := by
  induction n with
  | zero => simp [memcpy]
  | succ n ih =>
    simp only [memcpy, List.getElem?_set, memcpy_length]
    by_cases hni : n = i
    · subst hni
      by_cases hlt : n < dst.length
      · simp [hlt]
      · have : dst[n]? = none := List.getElem?_eq_none (by omega)
        simp [hlt, ih, this]
    · rw [if_neg hni, ih]
      by_cases h1 : i < n
      · have : i < n + 1 := by omega
        simp [h1, this]
      · have : ¬ i < n + 1 := by omega
        simp [h1, this]

/-- Copying the whole of `src` into a longer array: the head is `src`, the
rest is as before. -/
theorem memcpy_take_drop (dst src : List Nat) (n : Nat) (hs : src.length = n)
    (hd : n ≤ dst.length) :
    (memcpy dst src n).take n = src ∧ (memcpy dst src n).drop n = dst.drop n := by
  constructor
  · apply List.ext_getElem?
    intro i
    rw [List.getElem?_take, memcpy_get]
    by_cases hi : i < n
    · have h2 : i < dst.length := by omega
      have h3 : i < src.length := by omega
      simp [hi, h2, List.getElem?_eq_getElem h3]
    · have : src[i]? = none := List.getElem?_eq_none (by omega)
      simp [hi, this]
  · apply List.ext_getElem?
    intro i
    rw [List.getElem?_drop, List.getElem?_drop, memcpy_get]
    have : ¬ n + i < n := by omega
    simp [this]

/-- C7: an accepted send (neither START_TX nor START_RX set) of a payload `p`
of length `n ≤ 60` at tick `now` leaves tx storage `[0, n)` equal to `p`,
`tx.expLen = n`, `tx.dataIndx = 0`, `rx.startTime = 0`, the flag equal to the
old flag with START_TX set, the wake time `now + timer_from_us(200)` (32-bit),
and tx storage from `n` on, `rx.dataIndx`, `rx.expLen` and the rx storage as
they were. -/
theorem send_loads_and_arms (brd : Board) (args3 now : Nat) (p : List Nat) (g : Globals)
    (t : transparent_s)
    (hidle : ¬ (t.flag &&& START_TX ≠ 0 ∨ t.flag &&& START_RX ≠ 0))
    (hlen : p.length ≤ TRANSPARENT_DATA_LEN_MAX)
    (hstore : g.txBuf.length = TRANSPARENT_DATA_LEN_MAX) :
    (command_transparent_send brd p.length p args3 now g t).g.txBuf.take p.length = p ∧
    (command_transparent_send brd p.length p args3 now g t).t.txBuf.expLen = p.length ∧
    (command_transparent_send brd p.length p args3 now g t).t.txBuf.dataIndx = 0 ∧
    (command_transparent_send brd p.length p args3 now g t).t.rxBuf.startTime = 0 ∧
    (command_transparent_send brd p.length p args3 now g t).t.flag = t.flag ||| START_TX ∧
    (command_transparent_send brd p.length p args3 now g t).t.flag &&& START_TX = START_TX ∧
    (command_transparent_send brd p.length p args3 now g t).t.timer.waketime =
      (now + brd.timer_from_us 200) % 4294967296 ∧
    (command_transparent_send brd p.length p args3 now g t).g.txBuf.drop p.length =
      g.txBuf.drop p.length ∧
    (command_transparent_send brd p.length p args3 now g t).t.rxBuf.dataIndx =
      t.rxBuf.dataIndx ∧
    (command_transparent_send brd p.length p args3 now g t).t.rxBuf.expLen = t.rxBuf.expLen ∧
    (command_transparent_send brd p.length p args3 now g t).g.rxBuf = g.rxBuf := by
  have h60 : p.length ≤ 60 := hlen
  have hmod : p.length % 256 = p.length := Nat.mod_eq_of_lt (by omega)
  have hcp := memcpy_take_drop g.txBuf p p.length rfl (by rw [hstore]; exact hlen)
  rw [send_accepted brd p.length args3 now p g t hidle hlen]
  rw [hmod]
  exact ⟨hcp.1, rfl, rfl, rfl, rfl, or_and_self_bits _ _, rfl, hcp.2,
    send_timeout_dataIndx _ _, send_timeout_expLen _ _, rfl⟩

/-- C7 on an idle channel with the payload `[1, 2, 5, 104, 101]`. -/
theorem send_loads_and_arms_witness :
    (command_transparent_send demo_board 5 [1, 2, 5, 104, 101] 1000 7000 demo_globals
      demo_idle).g.txBuf.take 5 = [1, 2, 5, 104, 101] ∧
    (command_transparent_send demo_board 5 [1, 2, 5, 104, 101] 1000 7000 demo_globals
      demo_idle).t.flag = START_TX ∧
    (command_transparent_send demo_board 5 [1, 2, 5, 104, 101] 1000 7000 demo_globals
      demo_idle).t.timer.waketime = 31000 := by
  have h := send_loads_and_arms demo_board 1000 7000 [1, 2, 5, 104, 101] demo_globals
    demo_idle (by decide) (by decide) (by decide)
  exact ⟨h.1, h.2.2.2.2.1, h.2.2.2.2.2.2.1⟩

/-- C8: an accepted send with `timeout_ms ≤ 2500` stores `rx.timeoutS = 0` and
`rx.timeoutUs = timeout_ms * 1000`, and with that state the one-second
accounting of `transparent_event` never decrements anything. -/
theorem send_short_timeout (brd : Board) (args1 args3 now : Nat) (write : List Nat)
    (g : Globals) (t : transparent_s)
    (hidle : ¬ (t.flag &&& START_TX ≠ 0 ∨ t.flag &&& START_RX ≠ 0))
    (hlen : args1 ≤ TRANSPARENT_DATA_LEN_MAX) (hms : args3 ≤ 2500) :
    (command_transparent_send brd args1 write args3 now g t).t.rxBuf.timeoutS = 0 ∧
    (command_transparent_send brd args1 write args3 now g t).t.rxBuf.timeoutUs =
      args3 * 1000 ∧
    ∀ inp, rx_seconds brd inp (command_transparent_send brd args1 write args3 now g t).t.rxBuf =
      (command_transparent_send brd args1 write args3 now g t).t.rxBuf := by
  have hms2 : ¬ 2500 < args3 := by omega
  have hfit : args3 * 1000 % U32 = args3 * 1000 := Nat.mod_eq_of_lt (by unfold U32; omega)
  have hst : send_timeout args3 t.rxBuf =
      { t.rxBuf with timeoutS := 0, timeoutUs := args3 * 1000 } := by
    rw [send_timeout, if_neg hms2, hfit]
  rw [send_accepted brd args1 args3 now write g t hidle hlen, hst]
  exact ⟨rfl, rfl, fun inp => by simp [rx_seconds]⟩

/-- C8 at `timeout_ms = 2500`: no whole seconds, 2,500,000 microseconds. -/
theorem send_short_timeout_witness :
    (command_transparent_send demo_board 3 [1, 2, 0] 2500 7000 demo_globals
      demo_idle).t.rxBuf.timeoutS = 0 ∧
    (command_transparent_send demo_board 3 [1, 2, 0] 2500 7000 demo_globals
      demo_idle).t.rxBuf.timeoutUs = 2500000 := by
  have h := send_short_timeout demo_board 3 2500 7000 [1, 2, 0] demo_globals demo_idle
    (by decide) (by decide) (by decide)
  exact ⟨h.1, h.2.1⟩

/-- The range in which the whole seconds fit the `int8_t` counter: for
`2500 < timeout_ms < 128000` an accepted send stores
`rx.timeoutS = timeout_ms / 1000`, which is positive, `rx.timeoutUs < 1000000`,
and `rx.timeoutS * 1000000 + rx.timeoutUs = timeout_ms * 1000`. -/
theorem send_long_timeout_split (brd : Board) (args1 args3 now : Nat) (write : List Nat)
    (g : Globals) (t : transparent_s)
    (hidle : ¬ (t.flag &&& START_TX ≠ 0 ∨ t.flag &&& START_RX ≠ 0))
    (hlen : args1 ≤ TRANSPARENT_DATA_LEN_MAX) (hlo : 2500 < args3) (hhi : args3 < 128000) :
    (command_transparent_send brd args1 write args3 now g t).t.rxBuf.timeoutS =
      ((args3 / 1000 : Nat) : Int) ∧
    0 < (command_transparent_send brd args1 write args3 now g t).t.rxBuf.timeoutS ∧
    (command_transparent_send brd args1 write args3 now g t).t.rxBuf.timeoutUs < 1000000 ∧
    (command_transparent_send brd args1 write args3 now g t).t.rxBuf.timeoutS * 1000000 +
      ((command_transparent_send brd args1 write args3 now g t).t.rxBuf.timeoutUs : Int) =
      ((args3 * 1000 : Nat) : Int) := by
  have hq : args3 / 1000 % 256 = args3 / 1000 := Nat.mod_eq_of_lt (by omega)
  have hq2 : args3 / 1000 < 128 := by omega
  have hfit : args3 % 1000 * 1000 % U32 = args3 % 1000 * 1000 :=
    Nat.mod_eq_of_lt (by unfold U32; omega)
  have hst : send_timeout args3 t.rxBuf =
      { t.rxBuf with timeoutS := ((args3 / 1000 : Nat) : Int),
                     timeoutUs := args3 % 1000 * 1000 } := by
    rw [send_timeout, if_pos hlo, hfit, toInt8, hq, if_pos hq2]
  rw [send_accepted brd args1 args3 now write g t hidle hlen, hst]
  refine ⟨rfl, ?_, ?_, ?_⟩
  · show (0 : Int) < ((args3 / 1000 : Nat) : Int)
    omega
  · show args3 % 1000 * 1000 < 1000000
    omega
  · show ((args3 / 1000 : Nat) : Int) * 1000000 + ((args3 % 1000 * 1000 : Nat) : Int) =
      ((args3 * 1000 : Nat) : Int)
    omega

/-- The split of `timeout_ms = 3200`: three whole seconds and 200,000
microseconds. -/
theorem send_long_timeout_split_witness :
    (command_transparent_send demo_board 3 [1, 2, 0] 3200 7000 demo_globals
      demo_idle).t.rxBuf.timeoutS = 3 ∧
    (command_transparent_send demo_board 3 [1, 2, 0] 3200 7000 demo_globals
      demo_idle).t.rxBuf.timeoutUs = 200000 := by
  have h := send_long_timeout_split demo_board 3 3200 7000 [1, 2, 0] demo_globals demo_idle
    (by decide) (by decide) (by decide) (by decide)
  exact ⟨h.1, by decide⟩

/-- The loop body of `transparent_task` does not look at the flag before it
reports: for every channel it emits one response and a timer cancellation, and
leaves the flag 0 and the timer unscheduled. -/
theorem task_body_reports_any_channel (oid : Nat) (g : Globals) (t : transparent_s) :
    (∃ n bs, (transparent_task_body oid g t).trace = [Eff.response oid n bs, Eff.del_timer]) ∧
    (transparent_task_body oid g t).t.flag = 0 ∧
    (transparent_task_body oid g t).t.timer.armed = false := by
  simp [transparent_task_body]

/-- C10, evaluated on two channels with the task woken by channel 0: channel 1
is in TRANSMIT (flag `START_TX`, neither START_REPORT nor RX_TIMEOUT), and
`transparent_task` still emits a response for it, clears its flag and cancels
its timer. -/
theorem task_reports_transmitting_channel :
    demo_transmitting.flag &&& START_REPORT = 0 ∧
    demo_transmitting.flag &&& RX_TIMEOUT = 0 ∧
    (transparent_task demo_world).2 =
      [Eff.response 0 5 [1, 2, 2, 9, 7], Eff.del_timer,
       Eff.response 1 0 [], Eff.del_timer] ∧
    (transparent_task demo_world).1.objs.map (fun c => (c.1, c.2.flag, c.2.timer.armed)) =
      [(0, 0, false), (1, 0, false)] := by
  decide

/-! ## Reachable states -/

/-- The report task on a world with one channel. -/
theorem task_single (oid : Nat) (g : Globals) (t : transparent_s) :
    transparent_task { g := g, objs := [(oid, t)] } =
      if g.transparent_wake then
        ({ g := (transparent_task_body oid { g with transparent_wake := false } t).g,
           objs := [(oid, (transparent_task_body oid { g with transparent_wake := false } t).t)] },
         (transparent_task_body oid { g with transparent_wake := false } t).trace)
      else ({ g := g, objs := [(oid, t)] }, []) := by
  by_cases h : g.transparent_wake = true
  · simp [transparent_task, task_loop, h]
  · simp [transparent_task, h]

theorem tx_block_step (inp : EventIn) (g : Globals) (t : transparent_s) (tr : List Eff) :
    flag_step t.flag (tx_block inp g t tr).t.flag := by
  simp only [tx_block, flag_step]
  split_ifs with h1 h2 h3 <;> simp [h1]

theorem rx_advance_step (inp : EventIn) (g : Globals) (t : transparent_s) (tr : List Eff) :
    flag_step t.flag (rx_advance inp g t tr).t.flag := by
  simp only [rx_advance]
  split_ifs
  · simp [flag_step]
  · exact tx_block_step _ _ _ _

/-- The flag that `transparent_event` leaves is the old one or the result of
one of its transitions. -/
theorem event_flag_cases (brd : Board) (inp : EventIn) (g : Globals) (t : transparent_s) :
    flag_step t.flag (transparent_event brd inp g t).t.flag := by
  unfold transparent_event
  dsimp only
  split_ifs <;>
    first
    | exact rx_advance_step _ _ _ _
    | exact tx_block_step _ _ _ _
    | simp [flag_step]

/-- A send on a busy channel returns the state it was given. -/
theorem busy_send_is_noop_aux (brd : Board) (args1 args3 now : Nat) (write : List Nat)
    (g : Globals) (t : transparent_s)
    (hbusy : t.flag &&& START_TX ≠ 0 ∨ t.flag &&& START_RX ≠ 0) :
    command_transparent_send brd args1 write args3 now g t = { g := g, t := t, trace := [] } := by
  simp only [command_transparent_send, if_pos hbusy]

set_option maxRecDepth 100000 in
theorem exclusive_bits_fin : ∀ f : Fin 256,
    (f.val &&& START_TX = 0 ∨ f.val &&& START_RX = 0) →
    ((f.val ||| START_TX < 256) ∧
     (f.val &&& START_RX = 0 → (f.val ||| START_TX) &&& START_RX = 0) ∧
     (clear_bits f.val START_RX ||| RX_TIMEOUT < 256) ∧
     ((clear_bits f.val START_RX ||| RX_TIMEOUT) &&& START_RX = 0) ∧
     (clear_bits f.val START_RX ||| START_REPORT < 256) ∧
     ((clear_bits f.val START_RX ||| START_REPORT) &&& START_RX = 0) ∧
     (clear_bits f.val START_TX ||| START_RX < 256) ∧
     ((clear_bits f.val START_TX ||| START_RX) &&& START_TX = 0)) := by
  decide

/-- The flag invariant of the reachable states: a `uint8_t` in which START_TX
and START_RX are not both set. -/
theorem reach_flag (brd : Board) (g : Globals) (t : transparent_s) (h : Reach brd g t) :
    t.flag < 256 ∧ (t.flag &&& START_TX = 0 ∨ t.flag &&& START_RX = 0) := by
  induction h with
  | config g a _ _ => simp [command_config_transparent]
  | send g t args1 write args3 now _ ih =>
    have hb := exclusive_bits_fin ⟨t.flag, ih.1⟩ ih.2
    by_cases hbusy : t.flag &&& START_TX ≠ 0 ∨ t.flag &&& START_RX ≠ 0
    · rw [busy_send_is_noop_aux brd args1 args3 now write g t hbusy]; exact ih
    · by_cases hlen : TRANSPARENT_DATA_LEN_MAX < args1
      · simp only [command_transparent_send, if_neg hbusy, gt_iff_lt, if_pos hlen]
        exact ih
      · rw [send_accepted brd args1 args3 now write g t hbusy (by omega)]
        have hrx : t.flag &&& START_RX = 0 := by
          by_contra hc; exact hbusy (Or.inr hc)
        exact ⟨hb.1, Or.inr (hb.2.1 hrx)⟩
  | event g t inp _ ih =>
    have hb := exclusive_bits_fin ⟨t.flag, ih.1⟩ ih.2
    rcases event_flag_cases brd inp g t with h | h | h | h | ⟨_, h⟩ <;> rw [h]
    · exact ih
    · exact ⟨hb.2.2.1, Or.inr hb.2.2.2.1⟩
    · exact ⟨by decide, Or.inr (by decide)⟩
    · exact ⟨hb.2.2.2.2.1, Or.inr hb.2.2.2.2.2.1⟩
    · exact ⟨hb.2.2.2.2.2.2.1, Or.inl hb.2.2.2.2.2.2.2⟩
  | task g t oid g1 t1 tr _ hrun ih =>
    rw [task_single] at hrun
    split_ifs at hrun with hw
    · have ht : t1 = (transparent_task_body oid { g with transparent_wake := false } t).t := by
        injection hrun with h1 _
        injection h1 with _ h3
        simpa using h3.symm
      rw [ht]
      simp [transparent_task_body]
    · have ht : t1 = t := by
        injection hrun with h1 _
        injection h1 with _ h3
        simpa using h3.symm
      rw [ht]; exact ih

/-- C11: in every state reachable from a freshly configured channel by any
interleaving of `command_transparent_send`, `transparent_event` and
`transparent_task` steps, START_TX and START_RX are not both set. -/
theorem tx_rx_never_both (brd : Board) (g : Globals) (t : transparent_s)
    (h : Reach brd g t) :
    ¬ (t.flag &&& START_TX = START_TX ∧ t.flag &&& START_RX = START_RX) := by
  rintro ⟨h1, h2⟩
  rcases (reach_flag brd g t h).2 with h0 | h0
  · rw [h0] at h1; exact absurd h1 (by decide)
  · rw [h0] at h2; exact absurd h2 (by decide)

/-- C11 on the state after configuration and one accepted send. -/
theorem tx_rx_never_both_witness :
    ¬ ((command_transparent_send demo_board 3 [1, 2, 0] 1000 7000 demo_globals
          (command_config_transparent demo_idle)).t.flag &&& START_TX = START_TX ∧
       (command_transparent_send demo_board 3 [1, 2, 0] 1000 7000 demo_globals
          (command_config_transparent demo_idle)).t.flag &&& START_RX = START_RX) :=
  tx_rx_never_both demo_board _ _
    (Reach.send demo_globals (command_config_transparent demo_idle) 3 [1, 2, 0] 1000 7000
      (Reach.config demo_globals demo_idle rfl rfl))

/-! ## One byte of I/O per invocation -/

theorem tx_block_trace_idle (inp : EventIn) (g : Globals) (t : transparent_s) (tr : List Eff)
    (h : t.flag &&& START_TX = 0) : (tx_block inp g t tr).trace = tr := by
  have hne : ¬ t.flag &&& START_TX = START_TX := by rw [h]; decide
  simp only [tx_block, if_neg hne]

theorem rx_advance_ops_idle (inp : EventIn) (g : Globals) (t : transparent_s) (tr : List Eff)
    (h : t.flag &&& START_TX = 0) :
    uart_ops (rx_advance inp g t tr).trace = uart_ops tr := by
  have hne : ¬ t.flag &&& START_TX = START_TX := by rw [h]; decide
  simp only [rx_advance]
  split_ifs
  · simp [uart_ops, is_uart]
  · simp [tx_block, hne]

theorem tx_block_ops (inp : EventIn) (g : Globals) (t : transparent_s) :
    uart_ops (tx_block inp g t []).trace ≤ 1 := by
  rcases tx_block_trace inp g t [] with h | h <;> rw [h] <;> simp [uart_ops, is_uart]

/-- At most one access to the UART data register leaves no room for a read
and a write. -/
theorem not_read_and_write (tr : List Eff) (h : uart_ops tr ≤ 1) (v w : Nat)
    (hr : Eff.uart_read v ∈ tr) : Eff.uart_write w ∉ tr := by
  intro hw
  have hlen : (tr.filter is_uart).length ≤ 1 := by
    rw [← List.countP_eq_length_filter]; exact h
  have hr1 : Eff.uart_read v ∈ tr.filter is_uart := List.mem_filter.mpr ⟨hr, rfl⟩
  have hw1 : Eff.uart_write w ∈ tr.filter is_uart := List.mem_filter.mpr ⟨hw, rfl⟩
  match hl : tr.filter is_uart with
  | [] => rw [hl] at hr1; simp at hr1
  | [a] =>
    rw [hl] at hr1 hw1
    simp only [List.mem_singleton] at hr1 hw1
    rw [← hr1] at hw1
    exact absurd hw1 (by simp)
  | a :: b :: l => rw [hl] at hlen; simp at hlen

/-- C19: in every reachable channel state one invocation of `transparent_event`
accesses the UART data register at most once: it reads or writes at most one
byte, and never reads and writes in the same invocation. -/
theorem one_uart_access (brd : Board) (g : Globals) (t : transparent_s) (inp : EventIn)
    (h : Reach brd g t) :
    uart_ops (transparent_event brd inp g t).trace ≤ 1 ∧
    ∀ v w, Eff.uart_read v ∈ (transparent_event brd inp g t).trace →
      Eff.uart_write w ∉ (transparent_event brd inp g t).trace := by
  have hops : uart_ops (transparent_event brd inp g t).trace ≤ 1 := by
    have hinv := (reach_flag brd g t h).2
    unfold transparent_event
    dsimp only
    split_ifs with hrx
    · simp [uart_ops, is_uart]
    · simp [uart_ops, is_uart]
    · have htx : t.flag &&& START_TX = 0 := by
        rcases hinv with h0 | h0
        · exact h0
        · rw [h0] at hrx; exact absurd hrx (by decide)
      refine le_trans (le_of_eq (rx_advance_ops_idle _ _ _ _ ?_)) ?_
      · exact htx
      · simp [uart_ops, is_uart]
    · have htx : t.flag &&& START_TX = 0 := by
        rcases hinv with h0 | h0
        · exact h0
        · rw [h0] at hrx; exact absurd hrx (by decide)
      refine le_trans (le_of_eq (rx_advance_ops_idle _ _ _ _ ?_)) ?_
      · exact htx
      · simp [uart_ops, is_uart]
    · exact tx_block_ops _ _ _
    · exact tx_block_ops _ _ _
  exact ⟨hops, fun v w hr => not_read_and_write _ hops v w hr⟩

/-- C19 on the state after configuration and one accepted send, polled with
both a byte to read and room to write. -/
theorem one_uart_access_witness :
    uart_ops (transparent_event demo_board
      { now_sec_chk := 7100, now_sec_set := 7100, now_chk := 7100, now_rx := 7100,
        now_tx := 7100, rbne := true, data := 65, tbe := true }
      (command_transparent_send demo_board 3 [1, 2, 0] 1000 7000 demo_globals
        (command_config_transparent demo_idle)).g
      (command_transparent_send demo_board 3 [1, 2, 0] 1000 7000 demo_globals
        (command_config_transparent demo_idle)).t).trace ≤ 1 :=
  (one_uart_access demo_board _ _ _
    (Reach.send demo_globals (command_config_transparent demo_idle) 3 [1, 2, 0] 1000 7000
      (Reach.config demo_globals demo_idle rfl rfl))).1

/-! ## Cursor bounds -/

theorem reach_run_events (brd : Board) (ins : List EventIn) :
    ∀ (g : Globals) (t : transparent_s), Reach brd g t →
      Reach brd (run_events brd g t ins).1 (run_events brd g t ins).2 := by
  induction ins with
  | nil => intro g t h; exact h
  | cons inp rest ih => intro g t h; exact ih _ _ (Reach.event g t inp h)

theorem reach_demo_sent : Reach demo_board demo_sent.g demo_sent.t :=
  Reach.send demo_globals (command_config_transparent demo_idle) 1 [7] 1000 7000
    (Reach.config demo_globals demo_idle rfl rfl)

/-- C12, evaluated on a run from a fresh channel: an accepted send of one
byte, the byte written, then the peer's bytes `1, 2, 254`.  The length byte
254 gives `expLen = (254 + 3) mod 256 = 1`, so the reachable state has
`rx.expLen = 1`, not 0, and `rx.dataIndx = 3`, above it. -/
theorem rx_cursor_passes_expected_length :
    Reach demo_board (run_events demo_board demo_sent.g demo_sent.t demo_short_frame).1
      (run_events demo_board demo_sent.g demo_sent.t demo_short_frame).2 ∧
    (run_events demo_board demo_sent.g demo_sent.t demo_short_frame).2.rxBuf.expLen = 1 ∧
    (run_events demo_board demo_sent.g demo_sent.t demo_short_frame).2.rxBuf.dataIndx = 3 ∧
    ¬ ((run_events demo_board demo_sent.g demo_sent.t demo_short_frame).2.rxBuf.dataIndx ≤
        (run_events demo_board demo_sent.g demo_sent.t demo_short_frame).2.rxBuf.expLen) :=
  ⟨reach_run_events demo_board demo_short_frame _ _ reach_demo_sent,
    by decide, by decide, by decide⟩

set_option maxRecDepth 1000000 in
/-- C20, evaluated on a run from a fresh channel: an accepted send of one
byte, the byte written, then the peer's bytes `1, 2, 253` and 57 more.  With
`expLen = (253 + 3) mod 256 = 0` the frame never completes; the reachable
state has `rx.dataIndx = 60`, and the next received byte is stored at index
60, outside the 60-byte array, leaving `rx.dataIndx = 61`. -/
theorem rx_store_outside_storage :
    Reach demo_board (run_events demo_board demo_sent.g demo_sent.t demo_long_frame).1
      (run_events demo_board demo_sent.g demo_sent.t demo_long_frame).2 ∧
    (run_events demo_board demo_sent.g demo_sent.t demo_long_frame).2.rxBuf.dataIndx = 60 ∧
    (transparent_event demo_board (demo_byte 13200 9)
      (run_events demo_board demo_sent.g demo_sent.t demo_long_frame).1
      (run_events demo_board demo_sent.g demo_sent.t demo_long_frame).2).trace =
      [Eff.uart_read 9, Eff.rx_store 60 9] ∧
    (transparent_event demo_board (demo_byte 13200 9)
      (run_events demo_board demo_sent.g demo_sent.t demo_long_frame).1
      (run_events demo_board demo_sent.g demo_sent.t demo_long_frame).2).t.rxBuf.dataIndx = 61 :=
  ⟨reach_run_events demo_board demo_long_frame _ _ reach_demo_sent,
    by decide, by decide, by decide⟩

/-! ## Two channels on the shared storage -/

/-- C13 fails on two freshly configured channels 0 and 1: after an accepted
send on channel 0 (START_TX set, payload `[1, 2, 0]` in the shared tx storage)
a send on channel 1 is accepted as well: it sets START_TX on channel 1,
overwrites the shared tx storage with `[9, 9]`, and both channels are busy. -/
theorem second_channel_send_accepted :
    ∃ w1 w2 A B1 B2,
      World.command_transparent_send demo_board 0 3 [1, 2, 0] 1000 7000 demo_two_channels =
        some (w1, [Eff.add_timer]) ∧
      w1.objs = [(0, A), (1, B1)] ∧ A.flag &&& START_TX = START_TX ∧ B1.flag = 0 ∧
      w1.g.txBuf.take 3 = [1, 2, 0] ∧
      World.command_transparent_send demo_board 1 2 [9, 9] 1000 7050 w1 =
        some (w2, [Eff.add_timer]) ∧
      w2.objs = [(0, A), (1, B2)] ∧ B2.flag &&& START_TX = START_TX ∧
      w2.g.txBuf.take 3 = [9, 9, 0] ∧ B2 ≠ B1 := by
  refine ⟨_, _, _, _, _, rfl, rfl, by decide, by decide, by decide, rfl, rfl, by decide,
    by decide, by decide⟩

/-- C13 as amended: with two configured channels A and B on the shared
storage and A busy, a send on B is rejected when B itself is busy (nothing
changes), and accepted when B is not busy and the length is at most 60: B gets
START_TX, the shared tx storage is overwritten with the payload bytes, A stays
as it was, and both channels are busy afterwards. -/
theorem second_channel_send (brd : Board) (g : Globals) (a b : Nat) (A B : transparent_s)
    (args1 args3 now : Nat) (write : List Nat) (hab : a ≠ b)
    (hA : A.flag &&& START_TX ≠ 0 ∨ A.flag &&& START_RX ≠ 0) :
    ((B.flag &&& START_TX ≠ 0 ∨ B.flag &&& START_RX ≠ 0) →
      World.command_transparent_send brd b args1 write args3 now
          { g := g, objs := [(a, A), (b, B)] } =
        some ({ g := g, objs := [(a, A), (b, B)] }, [])) ∧
    (¬ (B.flag &&& START_TX ≠ 0 ∨ B.flag &&& START_RX ≠ 0) →
      args1 ≤ TRANSPARENT_DATA_LEN_MAX →
      World.command_transparent_send brd b args1 write args3 now
          { g := g, objs := [(a, A), (b, B)] } =
        some ({ g := { g with txBuf := memcpy g.txBuf write (args1 % 256) },
                objs := [(a, A),
                  (b, (command_transparent_send brd args1 write args3 now g B).t)] },
              [Eff.add_timer]) ∧
      (command_transparent_send brd args1 write args3 now g B).t.flag &&& START_TX =
        START_TX ∧
      (A.flag &&& START_TX ≠ 0 ∨ A.flag &&& START_RX ≠ 0)) := by
  have hne : (b == a) = false := by simpa using (Ne.symm hab)
  have hab2 : ¬ a = b := hab
  constructor
  · intro hB
    simp [World.command_transparent_send, List.lookup, hne, set_obj, hab2,
      busy_send_is_noop_aux brd args1 args3 now write g B hB]
  · intro hB hlen
    have hs := send_accepted brd args1 args3 now write g B hB hlen
    refine ⟨?_, ?_, hA⟩
    · simp [World.command_transparent_send, List.lookup, hne, set_obj, hab2, hs]
    · rw [hs]; exact or_and_self_bits _ _

/-- C13 as amended, on channel 0 in TRANSMIT and channel 1 idle. -/
theorem second_channel_send_witness :
    World.command_transparent_send demo_board 1 2 [9, 9] 1000 7050
        { g := demo_globals, objs := [(0, demo_transmitting), (1, demo_idle)] } =
      some ({ g := { demo_globals with txBuf := memcpy demo_globals.txBuf [9, 9] (2 % 256) },
              objs := [(0, demo_transmitting),
                (1, (command_transparent_send demo_board 2 [9, 9] 1000 7050 demo_globals
                  demo_idle).t)] },
            [Eff.add_timer]) :=
  ((second_channel_send demo_board demo_globals 0 1 demo_transmitting demo_idle 2 1000 7050
    [9, 9] (by decide) (Or.inl (by decide))).2 (by decide) (by decide)).1

/-! ## The report and reset path -/

/-- C14: the loop body of `transparent_task` run twice leaves the same state
(file-level variables and channel) as run once, for every state it starts
from; after the first and after the second run the flag is 0 and both cursors
and both expected lengths are 0. -/
theorem task_body_idempotent (oid : Nat) (g : Globals) (t : transparent_s) :
    (transparent_task_body oid (transparent_task_body oid g t).g
        (transparent_task_body oid g t).t).g = (transparent_task_body oid g t).g ∧
    (transparent_task_body oid (transparent_task_body oid g t).g
        (transparent_task_body oid g t).t).t = (transparent_task_body oid g t).t ∧
    ((transparent_task_body oid g t).t.flag = 0 ∧
      (transparent_task_body oid g t).t.txBuf.dataIndx = 0 ∧
      (transparent_task_body oid g t).t.txBuf.expLen = 0 ∧
      (transparent_task_body oid g t).t.rxBuf.dataIndx = 0 ∧
      (transparent_task_body oid g t).t.rxBuf.expLen = 0) ∧
    ((transparent_task_body oid (transparent_task_body oid g t).g
        (transparent_task_body oid g t).t).t.flag = 0 ∧
      (transparent_task_body oid (transparent_task_body oid g t).g
        (transparent_task_body oid g t).t).t.txBuf.dataIndx = 0 ∧
      (transparent_task_body oid (transparent_task_body oid g t).g
        (transparent_task_body oid g t).t).t.txBuf.expLen = 0 ∧
      (transparent_task_body oid (transparent_task_body oid g t).g
        (transparent_task_body oid g t).t).t.rxBuf.dataIndx = 0 ∧
      (transparent_task_body oid (transparent_task_body oid g t).g
        (transparent_task_body oid g t).t).t.rxBuf.expLen = 0) := by
  simp [transparent_task_body, zero_fill]

set_option maxRecDepth 100000 in
theorem send_bits_fin : ∀ f : Fin 256,
    f.val &&& START_RX = 0 →
    (¬ (f.val ||| START_TX) &&& START_RX = START_RX) ∧
    ((f.val ||| START_TX) &&& START_TX = START_TX) ∧
    ((clear_bits (f.val ||| START_TX) START_TX ||| START_RX) &&& START_TX = 0) ∧
    ((clear_bits (f.val ||| START_TX) START_TX ||| START_RX) &&& START_RX = START_RX) := by
  decide

/-- C16, evaluated at the empty payload: after an accepted send of length 0
the first invocation of `transparent_event` with transmit-ready asserted still
writes one byte to the UART data register, the byte at index 0 of the tx
storage, before it leaves TRANSMIT for RECEIVE. -/
theorem empty_send_writes_byte (brd : Board) (args3 now : Nat) (g : Globals)
    (t : transparent_s) (inp : EventIn) (hflag : t.flag < 256)
    (hidle : ¬ (t.flag &&& START_TX ≠ 0 ∨ t.flag &&& START_RX ≠ 0))
    (htbe : inp.tbe = true) :
    (command_transparent_send brd 0 [] args3 now g t).trace = [Eff.add_timer] ∧
    (transparent_event brd inp (command_transparent_send brd 0 [] args3 now g t).g
      (command_transparent_send brd 0 [] args3 now g t).t).trace =
      [Eff.uart_write (g.txBuf.getD 0 0)] ∧
    (transparent_event brd inp (command_transparent_send brd 0 [] args3 now g t).g
      (command_transparent_send brd 0 [] args3 now g t).t).t.flag &&& START_TX = 0 ∧
    (transparent_event brd inp (command_transparent_send brd 0 [] args3 now g t).g
      (command_transparent_send brd 0 [] args3 now g t).t).t.flag &&& START_RX = START_RX := by
  have hrx : t.flag &&& START_RX = 0 := by
    by_contra hc; exact hidle (Or.inr hc)
  obtain ⟨b1, b2, b3, b4⟩ := send_bits_fin ⟨t.flag, hflag⟩ hrx
  rw [send_accepted brd 0 args3 now [] g t hidle (by decide)]
  refine ⟨rfl, ?_, ?_, ?_⟩
  · simp [transparent_event, tx_block, memcpy, b1, b2, htbe]
  · simp only [transparent_event, tx_block]
    simp [b1, b2, htbe]
    exact b3
  · simp only [transparent_event, tx_block]
    simp [b1, b2, htbe]
    exact b4

/-- C16 at the empty payload on an idle channel whose tx storage still
holds `1, 2, 0` from the send before. -/
theorem empty_send_writes_byte_witness :
    (transparent_event demo_board (demo_ready 7100)
      (command_transparent_send demo_board 0 [] 1000 7000 demo_world.g demo_idle).g
      (command_transparent_send demo_board 0 [] 1000 7000 demo_world.g demo_idle).t).trace =
      [Eff.uart_write 1] :=
  (empty_send_writes_byte demo_board 1000 7000 demo_world.g demo_idle (demo_ready 7100)
    (by decide) (by decide) rfl).2.1

theorem tx_block_plain (inp : EventIn) (g : Globals) (t : transparent_s) (tr : List Eff)
    (htr : Eff.wake ∉ tr) : plain_step t.flag g.transparent_wake (tx_block inp g t tr) := by
  simp only [tx_block, plain_step]
  split_ifs with h1 h2 h3 <;> simp [h1, htr]

theorem rx_advance_outcome (inp : EventIn) (g : Globals) (t : transparent_s) (tr : List Eff)
    (htr : Eff.wake ∉ tr) (hrx : t.flag &&& START_RX = START_RX) :
    terminal_step t.flag (rx_advance inp g t tr) ∨
      plain_step t.flag g.transparent_wake (rx_advance inp g t tr) := by
  simp only [rx_advance]
  split_ifs
  · left; simp [terminal_step, hrx]
  · right; exact tx_block_plain _ _ _ _ htr

/-- Every invocation of `transparent_event` either ends the transaction or
goes on. -/
theorem event_outcome (brd : Board) (inp : EventIn) (g : Globals) (t : transparent_s) :
    terminal_step t.flag (transparent_event brd inp g t) ∨
      plain_step t.flag g.transparent_wake (transparent_event brd inp g t) := by
  unfold transparent_event
  dsimp only
  split_ifs with hrx
  · left; simp [terminal_step, hrx]
  · left; simp [terminal_step, hrx]
  · exact rx_advance_outcome _ _ _ _ (by simp) hrx
  · exact rx_advance_outcome _ _ _ _ (by simp) hrx
  · right; exact tx_block_plain _ _ _ _ (by simp)
  · right; exact tx_block_plain _ _ _ _ (by simp)

set_option maxRecDepth 100000 in
theorem terminal_bits_fin : ∀ f : Fin 256,
    ((clear_bits f.val START_RX ||| RX_TIMEOUT) &&& START_RX = 0) ∧
    ((clear_bits f.val START_RX ||| RX_TIMEOUT) &&& RX_TIMEOUT = RX_TIMEOUT) ∧
    ((clear_bits f.val START_RX ||| START_REPORT) &&& START_RX = 0) ∧
    ((clear_bits f.val START_RX ||| START_REPORT) &&& START_REPORT = START_REPORT) ∧
    ((clear_bits f.val START_TX ||| START_RX) &&& START_RX = START_RX) ∧
    ((clear_bits f.val START_TX ||| START_RX) &&& START_REPORT = f.val &&& START_REPORT) ∧
    ((clear_bits f.val START_TX ||| START_RX) &&& RX_TIMEOUT = f.val &&& RX_TIMEOUT) := by
  decide

/-- C17: for every channel state (flag a `uint8_t`) and every hardware input,
`transparent_event` returns SF_DONE exactly when it wakes the report task, and
exactly when it makes a terminal transition: START_RX was set, is clear
afterwards, and START_REPORT or RX_TIMEOUT is set afterwards.  In every other
case it returns SF_RESCHEDULE and wakes nothing.  When neither START_REPORT
nor RX_TIMEOUT was set before, SF_DONE is returned exactly when one of the two
is set afterwards. -/
theorem done_iff_terminal (brd : Board) (inp : EventIn) (g : Globals) (t : transparent_s)
    (hflag : t.flag < 256) :
    ((transparent_event brd inp g t).ret = sf.SF_DONE ↔
      Eff.wake ∈ (transparent_event brd inp g t).trace) ∧
    ((transparent_event brd inp g t).ret = sf.SF_DONE ↔
      (t.flag &&& START_RX = START_RX ∧
        (transparent_event brd inp g t).t.flag &&& START_RX = 0 ∧
        ((transparent_event brd inp g t).t.flag &&& START_REPORT = START_REPORT ∨
          (transparent_event brd inp g t).t.flag &&& RX_TIMEOUT = RX_TIMEOUT))) ∧
    ((transparent_event brd inp g t).ret = sf.SF_DONE →
      (transparent_event brd inp g t).g.transparent_wake = true) ∧
    ((transparent_event brd inp g t).ret ≠ sf.SF_DONE →
      (transparent_event brd inp g t).ret = sf.SF_RESCHEDULE ∧
      Eff.wake ∉ (transparent_event brd inp g t).trace ∧
      (transparent_event brd inp g t).g.transparent_wake = g.transparent_wake) ∧
    (t.flag &&& START_REPORT = 0 → t.flag &&& RX_TIMEOUT = 0 →
      ((transparent_event brd inp g t).ret = sf.SF_DONE ↔
        ((transparent_event brd inp g t).t.flag &&& START_REPORT = START_REPORT ∨
          (transparent_event brd inp g t).t.flag &&& RX_TIMEOUT = RX_TIMEOUT))) := by
  obtain ⟨b1, b2, b3, b4, b5, b6, b7⟩ := terminal_bits_fin ⟨t.flag, hflag⟩
  have c1 : RX_TIMEOUT &&& START_RX = 0 := by decide
  have c2 : RX_TIMEOUT &&& RX_TIMEOUT = RX_TIMEOUT := by decide
  have n0 : START_RX ≠ 0 := by decide
  have n1 : START_REPORT ≠ 0 := by decide
  have n2 : RX_TIMEOUT ≠ 0 := by decide
  rcases event_outcome brd inp g t with ⟨hret, hwake, hw, hrx, hf⟩ | ⟨hret, hwake, hw, hf⟩
  · have hterm : (transparent_event brd inp g t).t.flag &&& START_RX = 0 ∧
        ((transparent_event brd inp g t).t.flag &&& START_REPORT = START_REPORT ∨
          (transparent_event brd inp g t).t.flag &&& RX_TIMEOUT = RX_TIMEOUT) := by
      rcases hf with h | h | h <;> rw [h]
      · exact ⟨b1, Or.inr b2⟩
      · exact ⟨c1, Or.inr c2⟩
      · exact ⟨b3, Or.inl b4⟩
    refine ⟨⟨fun _ => hwake, fun _ => hret⟩, ⟨fun _ => ⟨hrx, hterm⟩, fun _ => hret⟩,
      fun _ => hw, fun h => absurd hret h, fun _ _ => ⟨fun _ => hterm.2, fun _ => hret⟩⟩
  · have hnd : (transparent_event brd inp g t).ret ≠ sf.SF_DONE := by rw [hret]; decide
    have hkeep : t.flag &&& START_RX = START_RX →
        (transparent_event brd inp g t).t.flag &&& START_RX ≠ 0 := by
      intro hrx
      rcases hf with h | ⟨_, h⟩ <;> rw [h]
      · rw [hrx]; exact n0
      · rw [b5]; exact n0
    have hsame : (transparent_event brd inp g t).t.flag &&& START_REPORT =
          t.flag &&& START_REPORT ∧
        (transparent_event brd inp g t).t.flag &&& RX_TIMEOUT = t.flag &&& RX_TIMEOUT := by
      rcases hf with h | ⟨_, h⟩ <;> rw [h]
      · exact ⟨rfl, rfl⟩
      · exact ⟨b6, b7⟩
    refine ⟨⟨fun h => absurd h hnd, fun h => absurd h hwake⟩,
      ⟨fun h => absurd h hnd, fun h => absurd h.2.1 (hkeep h.1)⟩,
      fun h => absurd h hnd, fun _ => ⟨hret, hwake, hw⟩, fun h4 h16 => ?_⟩
    refine ⟨fun h => absurd h hnd, fun h => ?_⟩
    rcases h with h | h
    · rw [hsame.1, h4] at h; exact absurd h.symm n1
    · rw [hsame.2, h16] at h; exact absurd h.symm n2

/-- C17 on a channel in RECEIVE whose timeout has run out: SF_DONE and a
wake. -/
theorem done_iff_terminal_witness :
    (transparent_event demo_board (demo_silence 130000000) demo_globals demo_waiting).ret =
      sf.SF_DONE ∧
    Eff.wake ∈
      (transparent_event demo_board (demo_silence 130000000) demo_globals demo_waiting).trace :=
  ⟨by decide,
    (done_iff_terminal demo_board (demo_silence 130000000) demo_globals demo_waiting
      (by decide)).1.mp (by decide)⟩

/-! ## The timeout of a silent peer -/

theorem sub32_eq (a b : Nat) (hba : b ≤ a) (ha : a < U32) : sub32 a b = a - b := by
  unfold sub32 U32 at *
  omega

set_option maxRecDepth 100000 in
theorem silent_bits_fin : ∀ f : Fin 256,
    f.val &&& START_TX = 0 →
    (¬ f.val &&& START_TX = START_TX) ∧
    (clear_bits f.val START_RX ||| RX_TIMEOUT < 256) ∧
    ((clear_bits f.val START_RX ||| RX_TIMEOUT) &&& START_TX = 0) ∧
    ((clear_bits f.val START_RX ||| RX_TIMEOUT) &&& START_RX = 0) ∧
    ((clear_bits f.val START_RX ||| RX_TIMEOUT) &&& RX_TIMEOUT = RX_TIMEOUT) := by
  decide

/-- An invocation without a ready byte and without a timeout, in RECEIVE with
START_TX clear: only the one-second accounting and the wake time change. -/
theorem event_silent (brd : Board) (inp : EventIn) (g : Globals) (t : transparent_s)
    (hrx : t.flag &&& START_RX = START_RX) (htx : ¬ t.flag &&& START_TX = START_TX)
    (hrb : inp.rbne = false) (hto : timeout_fires brd inp t = false) :
    transparent_event brd inp g t =
      { g := g,
        t := { t with
          timer := { t.timer with
            waketime := add32 t.timer.waketime (TRANSPARENT_POLLING_PERIOD_TICKS brd) },
          rxBuf := rx_seconds brd inp t.rxBuf },
        ret := sf.SF_RESCHEDULE, trace := [] } := by
  unfold timeout_fires at hto
  simp [transparent_event, tx_block, hrx, htx, hrb, hto]

/-- An invocation with neither START_RX nor START_TX set: only the wake time
changes. -/
theorem event_dead (brd : Board) (inp : EventIn) (g : Globals) (t : transparent_s)
    (hrx : ¬ t.flag &&& START_RX = START_RX) (htx : ¬ t.flag &&& START_TX = START_TX) :
    transparent_event brd inp g t =
      { g := g,
        t := { t with
          timer := { t.timer with
            waketime := add32 t.timer.waketime (TRANSPARENT_POLLING_PERIOD_TICKS brd) } },
        ret := sf.SF_RESCHEDULE, trace := [] } := by
  simp [transparent_event, tx_block, hrx, htx]

/-- The one-second accounting keeps the count: a decrement happens only after
more than a second of ticks since the reference instant. -/
theorem rx_seconds_counting (brd : Board) (inp : EventIn) (t : transparent_s)
    (S U t0 last d : Nat) (h : counting brd S U t0 last d t)
    (h1 : last ≤ inp.now_sec_chk) (h2 : inp.now_sec_chk ≤ inp.now_sec_set)
    (h3 : inp.now_sec_set ≤ inp.now_chk) (h4 : inp.now_chk < U32) :
    ((rx_seconds brd inp t.rxBuf).timeoutS < t.rxBuf.timeoutS ∧
      counting brd S U t0 inp.now_chk (d + 1) { t with rxBuf := rx_seconds brd inp t.rxBuf }) ∨
    (¬ (rx_seconds brd inp t.rxBuf).timeoutS < t.rxBuf.timeoutS ∧
      counting brd S U t0 inp.now_chk d { t with rxBuf := rx_seconds brd inp t.rxBuf }) := by
  obtain ⟨hu, hs, hn, hl, hb⟩ := h
  have hsub : sub32 inp.now_sec_chk t.rxBuf.startTime = inp.now_sec_chk - t.rxBuf.startTime :=
    sub32_eq _ _ (by omega) (by omega)
  by_cases hpos : t.rxBuf.timeoutS > 0
  · by_cases hel : sub32 inp.now_sec_chk t.rxBuf.startTime > brd.timer_from_us 1000000
    · left
      have hrs : rx_seconds brd inp t.rxBuf =
          { t.rxBuf with startTime := inp.now_sec_set, timeoutS := t.rxBuf.timeoutS - 1 } := by
        simp [rx_seconds, hpos, hel]
      rw [hrs]
      rw [hsub] at hel
      refine ⟨by show t.rxBuf.timeoutS - 1 < t.rxBuf.timeoutS; omega, hu, ?_, ?_, ?_, ?_⟩
      · show t.rxBuf.timeoutS - 1 + ((d + 1 : Nat) : Int) = (S : Int)
        push_cast; omega
      · show (0 : Int) ≤ t.rxBuf.timeoutS - 1
        omega
      · show t0 + (d + 1) * (brd.timer_from_us 1000000 + 1) ≤ inp.now_sec_set
        have : (d + 1) * (brd.timer_from_us 1000000 + 1) =
            d * (brd.timer_from_us 1000000 + 1) + (brd.timer_from_us 1000000 + 1) := by ring
        omega
      · show inp.now_sec_set ≤ inp.now_chk
        exact h3
    · right
      have hrs : rx_seconds brd inp t.rxBuf = t.rxBuf := by
        simp [rx_seconds, hpos, hel]
      rw [hrs]
      exact ⟨lt_irrefl _, hu, hs, hn, hl, by show t.rxBuf.startTime ≤ inp.now_chk; omega⟩
  · right
    have hrs : rx_seconds brd inp t.rxBuf = t.rxBuf := by
      simp [rx_seconds, hpos]
    rw [hrs]
    exact ⟨lt_irrefl _, hu, hs, hn, hl, by show t.rxBuf.startTime ≤ inp.now_chk; omega⟩

theorem counting_timer (brd : Board) (S U t0 last d : Nat) (t : transparent_s) (w : Nat)
    (rx : buffer_s) (h : counting brd S U t0 last d { t with rxBuf := rx }) :
    counting brd S U t0 last d
      { t with timer := { t.timer with waketime := w }, rxBuf := rx } :=
  ⟨h.us, h.secs, h.nonneg, h.late, h.before⟩

/-- A run with a silent peer from a state with `d` decrements behind it: an
invocation that returns SF_DONE sets RX_TIMEOUT, comes later than `S` seconds
plus the remainder after `t0`, and is the one at which the count reaches
`S`. -/
theorem silent_run (brd : Board) (S U t0 : Nat) :
    ∀ (ins : List EventIn) (g : Globals) (t : transparent_s) (last d : Nat),
      t.flag < 256 → t.flag &&& START_TX = 0 →
      (t.flag &&& START_RX = START_RX → counting brd S U t0 last d t) →
      ticks_ok last ins →
      ∀ i o inp, (poll brd g t ins)[i]? = some o → ins[i]? = some inp →
        o.ret = sf.SF_DONE →
        o.t.flag &&& RX_TIMEOUT = RX_TIMEOUT ∧
        t0 + S * (brd.timer_from_us 1000000 + 1) + brd.timer_from_us U < inp.now_chk ∧
        d + sec_decrements brd g t (ins.take (i + 1)) = S := by
  intro ins
  induction ins with
  | nil => intro g t last d _ _ _ _ i o inp ho; simp [poll] at ho
  | cons inp rest ih =>
    intro g t last d hflag htx hcnt hticks i o inp1 ho hinp hdone
    obtain ⟨hrb, k1, k2, k3, k4, hrest⟩ := hticks
    obtain ⟨b0, b1, b2, b3, b4⟩ := silent_bits_fin ⟨t.flag, hflag⟩ htx
    by_cases hrx : t.flag &&& START_RX = START_RX
    · have hc := hcnt hrx
      by_cases hfire : timeout_fires brd inp t = true
      · -- the timeout branch
        have hev := event_timeout brd inp g t hrx hfire
        have hparts : (rx_seconds brd inp t.rxBuf).timeoutS = 0 ∧
            sub32 inp.now_chk (rx_seconds brd inp t.rxBuf).startTime >
              brd.timer_from_us (rx_seconds brd inp t.rxBuf).timeoutUs := by
          simp only [timeout_fires, rx_timed_out, Bool.and_eq_true, decide_eq_true_eq] at hfire
          exact ⟨hfire.1.1, hfire.2⟩
        have hnow : d + (if t.flag &&& START_RX = START_RX ∧
              (rx_seconds brd inp t.rxBuf).timeoutS < t.rxBuf.timeoutS then 1 else 0) = S ∧
            t0 + S * (brd.timer_from_us 1000000 + 1) + brd.timer_from_us U < inp.now_chk := by
          rcases rx_seconds_counting brd inp t S U t0 last d hc k1 k2 k3 k4 with
            ⟨hdec, c1⟩ | ⟨hdec, c1⟩
          · obtain ⟨cu, cs, _, cl, cb⟩ := c1
            have cu1 : (rx_seconds brd inp t.rxBuf).timeoutUs = U := cu
            have cs1 : (rx_seconds brd inp t.rxBuf).timeoutS + ((d + 1 : Nat) : Int) = (S : Int) :=
              cs
            have cl1 : t0 + (d + 1) * (brd.timer_from_us 1000000 + 1) ≤
                (rx_seconds brd inp t.rxBuf).startTime := cl
            have cb1 : (rx_seconds brd inp t.rxBuf).startTime ≤ inp.now_chk := cb
            have hS : d + 1 = S := by rw [hparts.1] at cs1; omega
            have hel := hparts.2
            rw [sub32_eq _ _ cb1 k4, cu1] at hel
            rw [if_pos ⟨hrx, hdec⟩]
            rw [← hS]
            exact ⟨rfl, by omega⟩
          · obtain ⟨cu, cs, _, cl, cb⟩ := c1
            have cu1 : (rx_seconds brd inp t.rxBuf).timeoutUs = U := cu
            have cs1 : (rx_seconds brd inp t.rxBuf).timeoutS + ((d : Nat) : Int) = (S : Int) := cs
            have cl1 : t0 + d * (brd.timer_from_us 1000000 + 1) ≤
                (rx_seconds brd inp t.rxBuf).startTime := cl
            have cb1 : (rx_seconds brd inp t.rxBuf).startTime ≤ inp.now_chk := cb
            have hS : d = S := by rw [hparts.1] at cs1; omega
            have hel := hparts.2
            rw [sub32_eq _ _ cb1 k4, cu1] at hel
            rw [if_neg (fun hh => hdec hh.2)]
            rw [← hS]
            exact ⟨rfl, by omega⟩
        cases i with
        | zero =>
          simp only [poll, List.getElem?_cons_zero, Option.some.injEq] at ho hinp
          subst ho; subst hinp
          refine ⟨?_, hnow.2, ?_⟩
          · rw [hev]; exact b4
          · simp only [List.take_succ_cons, List.take_zero, sec_decrements, Nat.add_zero]
            exact hnow.1
        | succ i =>
          simp only [poll, List.getElem?_cons_succ] at ho hinp
          have hf1 : (transparent_event brd inp g t).t.flag =
              clear_bits t.flag START_RX ||| RX_TIMEOUT := by rw [hev]
          have hres := ih (transparent_event brd inp g t).g (transparent_event brd inp g t).t
            inp.now_chk
            (d + (if t.flag &&& START_RX = START_RX ∧
              (rx_seconds brd inp t.rxBuf).timeoutS < t.rxBuf.timeoutS then 1 else 0))
            (by rw [hf1]; exact b1) (by rw [hf1]; exact b2)
            (fun h => by rw [hf1, b3] at h; exact absurd h (by decide))
            hrest i o inp1 ho hinp hdone
          refine ⟨hres.1, hres.2.1, ?_⟩
          simp only [List.take_succ_cons, sec_decrements]
          rw [← Nat.add_assoc]; exact hres.2.2
      · -- no timeout, nothing received
        have hfire2 : timeout_fires brd inp t = false := by
          cases h : timeout_fires brd inp t
          · rfl
          · exact absurd h hfire
        have hev := event_silent brd inp g t hrx b0 hrb hfire2
        cases i with
        | zero =>
          simp only [poll, List.getElem?_cons_zero, Option.some.injEq] at ho
          subst ho
          rw [hev] at hdone
          exact absurd hdone (by simp)
        | succ i =>
          simp only [poll, List.getElem?_cons_succ] at ho hinp
          have hf1 : (transparent_event brd inp g t).t.flag = t.flag := by rw [hev]
          have hcount : ∃ d1, d1 = d + (if t.flag &&& START_RX = START_RX ∧
                (rx_seconds brd inp t.rxBuf).timeoutS < t.rxBuf.timeoutS then 1 else 0) ∧
              counting brd S U t0 inp.now_chk d1 (transparent_event brd inp g t).t := by
            rcases rx_seconds_counting brd inp t S U t0 last d hc k1 k2 k3 k4 with
              ⟨hdec, c1⟩ | ⟨hdec, c1⟩
            · refine ⟨d + 1, by rw [if_pos ⟨hrx, hdec⟩], ?_⟩
              rw [hev]; exact counting_timer brd S U t0 _ _ t _ _ c1
            · refine ⟨d, by rw [if_neg (fun hh => hdec hh.2)]; rfl, ?_⟩
              rw [hev]; exact counting_timer brd S U t0 _ _ t _ _ c1
          obtain ⟨d1, hd1, hc1⟩ := hcount
          have hres := ih (transparent_event brd inp g t).g (transparent_event brd inp g t).t
            inp.now_chk d1 (by rw [hf1]; exact hflag) (by rw [hf1]; exact htx)
            (fun _ => hc1) hrest i o inp1 ho hinp hdone
          refine ⟨hres.1, hres.2.1, ?_⟩
          simp only [List.take_succ_cons, sec_decrements]
          rw [← Nat.add_assoc, ← hd1]; exact hres.2.2
    · -- not in RECEIVE
      have hev := event_dead brd inp g t hrx b0
      cases i with
      | zero =>
        simp only [poll, List.getElem?_cons_zero, Option.some.injEq] at ho
        subst ho
        rw [hev] at hdone
        exact absurd hdone (by simp)
      | succ i =>
        simp only [poll, List.getElem?_cons_succ] at ho hinp
        have hf1 : (transparent_event brd inp g t).t.flag = t.flag := by rw [hev]
        have hres := ih (transparent_event brd inp g t).g (transparent_event brd inp g t).t
          inp.now_chk d (by rw [hf1]; exact hflag) (by rw [hf1]; exact htx)
          (fun h => by rw [hf1] at h; exact absurd h hrx) hrest i o inp1 ho hinp hdone
        refine ⟨hres.1, hres.2.1, ?_⟩
        simp only [List.take_succ_cons, sec_decrements]
        rw [if_neg (fun hh => hrx hh.1), Nat.zero_add]; exact hres.2.2

theorem timer_from_us_seconds (brd : Board)
    (hsub : ∀ a b, brd.timer_from_us (a + b) ≤ brd.timer_from_us a + brd.timer_from_us b)
    (n : Nat) :
    brd.timer_from_us ((n + 1) * 1000000) ≤ (n + 1) * brd.timer_from_us 1000000 := by
  induction n with
  | zero => simp
  | succ n ih =>
    have h1 : (n + 1 + 1) * 1000000 = (n + 1) * 1000000 + 1000000 := by ring
    have h2 : (n + 1 + 1) * brd.timer_from_us 1000000 =
        (n + 1) * brd.timer_from_us 1000000 + brd.timer_from_us 1000000 := by ring
    rw [h1, h2]
    exact le_trans (hsub _ _) (Nat.add_le_add_right ih _)

/-- C18: a silent peer never causes an early timeout.  For `timeout_ms` below
128000, a channel with START_TX clear (as it is in RECEIVE) whose `rx`
timeout fields are what the send stored for `timeout_ms` and whose activity
tick is `t0`, polled with no byte
ever ready at ticks that never decrease and stay below 2^32: an invocation
that ends the transaction (SF_DONE) sets RX_TIMEOUT, and its tick `t`
satisfies `t - t0 > timer_from_us(timeout_ms * 1000)`; up to and including it
the whole-seconds counter was decremented exactly as many times as the send
stored in `rx.timeoutS`, that is `timeout_ms / 1000` times above 2500 ms and
never below.  `timer_from_us` is taken to be subadditive, as a conversion
from microseconds to ticks by a constant factor is, also in 32-bit
arithmetic. -/
theorem silent_peer_no_early_timeout (brd : Board) (g : Globals) (t : transparent_s)
    (ms t0 : Nat) (ins : List EventIn)
    (hsub : ∀ a b, brd.timer_from_us (a + b) ≤ brd.timer_from_us a + brd.timer_from_us b)
    (hms : ms < 128000) (hflag : t.flag < 256) (htx : t.flag &&& START_TX = 0)
    (hsend : send_timeout ms t.rxBuf = t.rxBuf) (hstart : t.rxBuf.startTime = t0)
    (hticks : ticks_ok t0 ins) :
    ∀ i o inp, (poll brd g t ins)[i]? = some o → ins[i]? = some inp →
      o.ret = sf.SF_DONE →
      o.t.flag &&& RX_TIMEOUT = RX_TIMEOUT ∧
      brd.timer_from_us (ms * 1000) < inp.now_chk - t0 ∧
      ((sec_decrements brd g t (ins.take (i + 1)) : Nat) : Int) = t.rxBuf.timeoutS ∧
      sec_decrements brd g t (ins.take (i + 1)) = (if 2500 < ms then ms / 1000 else 0) := by
  intro i o inp ho hinp hdone
  by_cases hlong : 2500 < ms
  · -- whole seconds and a remainder
    have hq : ms / 1000 % 256 = ms / 1000 := Nat.mod_eq_of_lt (by omega)
    have hq2 : ms / 1000 < 128 := by omega
    have hfit : ms % 1000 * 1000 % U32 = ms % 1000 * 1000 :=
      Nat.mod_eq_of_lt (by unfold U32; omega)
    have hst : send_timeout ms t.rxBuf =
        { t.rxBuf with timeoutS := ((ms / 1000 : Nat) : Int),
                       timeoutUs := ms % 1000 * 1000 } := by
      rw [send_timeout, if_pos hlong, hfit, toInt8, hq, if_pos hq2]
    have hS : t.rxBuf.timeoutS = ((ms / 1000 : Nat) : Int) := by
      have := congrArg buffer_s.timeoutS hsend; rw [hst] at this; exact this.symm
    have hU : t.rxBuf.timeoutUs = ms % 1000 * 1000 := by
      have := congrArg buffer_s.timeoutUs hsend; rw [hst] at this; exact this.symm
    have hc : counting brd (ms / 1000) (ms % 1000 * 1000) t0 t0 0 t :=
      ⟨hU, by rw [hS]; simp, by rw [hS]; omega, by rw [hstart]; omega, by rw [hstart]⟩
    obtain ⟨r1, r2, r3⟩ := silent_run brd (ms / 1000) (ms % 1000 * 1000) t0 ins g t t0 0
      hflag htx (fun _ => hc) hticks i o inp ho hinp hdone
    rw [Nat.zero_add] at r3
    have hpos : ms / 1000 = (ms / 1000 - 1) + 1 := by omega
    have hsec := timer_from_us_seconds brd hsub (ms / 1000 - 1)
    rw [← hpos] at hsec
    have hsplit : ms * 1000 = ms / 1000 * 1000000 + ms % 1000 * 1000 := by omega
    have hle := hsub (ms / 1000 * 1000000) (ms % 1000 * 1000)
    rw [← hsplit] at hle
    have hmul : ms / 1000 * (brd.timer_from_us 1000000 + 1) =
        ms / 1000 * brd.timer_from_us 1000000 + ms / 1000 := by ring
    refine ⟨r1, by omega, by rw [r3, hS], by rw [r3, if_pos hlong]⟩
  · -- the remainder alone
    have hfit : ms * 1000 % U32 = ms * 1000 := Nat.mod_eq_of_lt (by unfold U32; omega)
    have hst : send_timeout ms t.rxBuf =
        { t.rxBuf with timeoutS := 0, timeoutUs := ms * 1000 } := by
      rw [send_timeout, if_neg hlong, hfit]
    have hS : t.rxBuf.timeoutS = 0 := by
      have := congrArg buffer_s.timeoutS hsend; rw [hst] at this; exact this.symm
    have hU : t.rxBuf.timeoutUs = ms * 1000 := by
      have := congrArg buffer_s.timeoutUs hsend; rw [hst] at this; exact this.symm
    have hc : counting brd 0 (ms * 1000) t0 t0 0 t :=
      ⟨hU, by rw [hS]; simp, by rw [hS], by rw [hstart]; omega, by rw [hstart]⟩
    obtain ⟨r1, r2, r3⟩ := silent_run brd 0 (ms * 1000) t0 ins g t t0 0
      hflag htx (fun _ => hc) hticks i o inp ho hinp hdone
    rw [Nat.zero_add] at r3
    refine ⟨r1, by omega, by rw [r3, hS]; rfl, by rw [r3, if_neg hlong]⟩

theorem demo_board_subadditive (a b : Nat) :
    demo_board.timer_from_us (a + b) ≤
      demo_board.timer_from_us a + demo_board.timer_from_us b := by
  show (a + b) * 120 % U32 ≤ a * 120 % U32 + b * 120 % U32
  rw [Nat.add_mul, Nat.add_mod]
  exact Nat.mod_le _ _

/-- C18 at `timeout_ms = 3200` on a 120 MHz timer: three invocations more
than a second apart decrement the counter from 3 to 0, the fourth, 30 million
ticks later, ends the transaction; 419,999,000 ticks have passed, more than
the 384,000,000 of 3.2 s, after exactly 3 decrements. -/
theorem silent_peer_no_early_timeout_witness :
    (poll demo_board demo_globals demo_long_wait demo_quiet_run).map (fun o => o.ret) =
      [sf.SF_RESCHEDULE, sf.SF_RESCHEDULE, sf.SF_RESCHEDULE, sf.SF_DONE] ∧
    demo_board.timer_from_us (3200 * 1000) < 420000000 - 1000 ∧
    sec_decrements demo_board demo_globals demo_long_wait (demo_quiet_run.take 4) = 3 := by
  have h := silent_peer_no_early_timeout demo_board demo_globals demo_long_wait 3200 1000
    demo_quiet_run demo_board_subadditive (by decide) (by decide) (by decide)
    (by decide) rfl (by simp [ticks_ok, demo_quiet_run, demo_silence, U32])
    3 _ (demo_silence 420000000) rfl rfl (by decide)
  exact ⟨by decide, h.2.1, h.2.2.2⟩

/-! ## The bytes of a transmission -/

set_option maxRecDepth 100000 in
theorem tx_bits_fin : ∀ f : Fin 256,
    (f.val &&& START_TX = 0 →
      (clear_bits f.val START_RX ||| RX_TIMEOUT < 256) ∧
      ((clear_bits f.val START_RX ||| RX_TIMEOUT) &&& START_TX = 0) ∧
      ((clear_bits f.val START_RX ||| START_REPORT) < 256) ∧
      ((clear_bits f.val START_RX ||| START_REPORT) &&& START_TX = 0) ∧
      (¬ f.val &&& START_TX = START_TX)) ∧
    (clear_bits f.val START_TX ||| START_RX < 256) ∧
    ((clear_bits f.val START_TX ||| START_RX) &&& START_TX = 0) ∧
    ((clear_bits f.val START_TX ||| START_RX) &&& START_RX = START_RX) := by
  decide

theorem rx_advance_writes_idle (inp : EventIn) (g : Globals) (t : transparent_s)
    (tr : List Eff) (h : t.flag &&& START_TX = 0) :
    (rx_advance inp g t tr).trace.filterMap written = tr.filterMap written := by
  have hne : ¬ t.flag &&& START_TX = START_TX := by rw [h]; decide
  simp only [rx_advance]
  split_ifs
  · simp [written]
  · simp [tx_block, hne]

/-- With START_TX clear an invocation writes nothing to the UART. -/
theorem event_writes_idle (brd : Board) (inp : EventIn) (g : Globals) (t : transparent_s)
    (h : t.flag &&& START_TX = 0) :
    (transparent_event brd inp g t).trace.filterMap written = [] := by
  have hne : ¬ t.flag &&& START_TX = START_TX := by rw [h]; decide
  unfold transparent_event
  dsimp only
  split_ifs
  · simp [written]
  · simp [written]
  · refine Eq.trans (rx_advance_writes_idle _ _ _ _ ?_) ?_
    · exact h
    · simp [written]
  · refine Eq.trans (rx_advance_writes_idle _ _ _ _ ?_) ?_
    · exact h
    · simp [written]
  · simp [tx_block, hne]
  · simp [tx_block, hne]

/-- Once START_TX is clear a run of invocations writes nothing to the UART. -/
theorem run_writes_idle (brd : Board) :
    ∀ (ins : List EventIn) (g : Globals) (t : transparent_s),
      t.flag < 256 → t.flag &&& START_TX = 0 → uart_writes (poll brd g t ins) = [] := by
  intro ins
  induction ins with
  | nil => intro g t _ _; rfl
  | cons inp rest ih =>
    intro g t hflag htx
    obtain ⟨b, _⟩ := tx_bits_fin ⟨t.flag, hflag⟩
    obtain ⟨b1, b2, b3, b4, b5⟩ := b htx
    have hnext : (transparent_event brd inp g t).t.flag < 256 ∧
        (transparent_event brd inp g t).t.flag &&& START_TX = 0 := by
      rcases event_flag_cases brd inp g t with h | h | h | h | ⟨h0, _⟩
      · rw [h]; exact ⟨hflag, htx⟩
      · rw [h]; exact ⟨b1, b2⟩
      · rw [h]; exact ⟨by decide, by decide⟩
      · rw [h]; exact ⟨b3, b4⟩
      · exact absurd h0 b5
    have hrest := ih (transparent_event brd inp g t).g (transparent_event brd inp g t).t
      hnext.1 hnext.2
    simp only [uart_writes, poll, List.map_cons, List.flatten_cons] at hrest ⊢
    rw [event_writes_idle brd inp g t htx, hrest]
    rfl

/-- One invocation in TRANSMIT with bytes left: without transmit-ready nothing
is written and the cursor stays; with it the byte under the cursor is written
and the cursor advances, and the write of the last byte clears START_TX, sets
START_RX and stamps `rx.startTime` with the current tick. -/
theorem tx_step (brd : Board) (inp : EventIn) (g : Globals) (t : transparent_s)
    (hflag : t.flag < 256)
    (htx : t.flag &&& START_TX = START_TX) (hrx : t.flag &&& START_RX = 0)
    (hk : t.txBuf.dataIndx < t.txBuf.expLen) (hn : t.txBuf.expLen ≤ 60) :
    (transparent_event brd inp g t).g = g ∧
    (transparent_event brd inp g t).t.txBuf.expLen = t.txBuf.expLen ∧
    (inp.tbe = false →
      (transparent_event brd inp g t).trace = [] ∧
      (transparent_event brd inp g t).t.txBuf.dataIndx = t.txBuf.dataIndx ∧
      (transparent_event brd inp g t).t.flag = t.flag) ∧
    (inp.tbe = true →
      (transparent_event brd inp g t).trace =
        [Eff.uart_write (g.txBuf.getD t.txBuf.dataIndx 0)] ∧
      (transparent_event brd inp g t).t.txBuf.dataIndx = t.txBuf.dataIndx + 1 ∧
      (t.txBuf.dataIndx + 1 < t.txBuf.expLen →
        (transparent_event brd inp g t).t.flag = t.flag) ∧
      (t.txBuf.dataIndx + 1 = t.txBuf.expLen →
        (transparent_event brd inp g t).t.flag &&& START_TX = 0 ∧
        (transparent_event brd inp g t).t.flag &&& START_RX = START_RX ∧
        (transparent_event brd inp g t).t.flag < 256 ∧
        (transparent_event brd inp g t).t.rxBuf.startTime = inp.now_tx)) := by
  have hrx2 : ¬ t.flag &&& START_RX = START_RX := by rw [hrx]; decide
  obtain ⟨_, c1, c2, c3⟩ := tx_bits_fin ⟨t.flag, hflag⟩
  have hmod : (t.txBuf.dataIndx + 1) % 256 = t.txBuf.dataIndx + 1 :=
    Nat.mod_eq_of_lt (by omega)
  have hev : transparent_event brd inp g t =
      tx_block inp g { t with timer := { t.timer with
        waketime := add32 t.timer.waketime (TRANSPARENT_POLLING_PERIOD_TICKS brd) } } [] := by
    simp [transparent_event, hrx2]
  rw [hev]
  cases htbe : inp.tbe
  · simp [tx_block, htx, htbe]
  · by_cases hlast : t.txBuf.dataIndx + 1 < t.txBuf.expLen
    · have hge : ¬ t.txBuf.expLen ≤ t.txBuf.dataIndx + 1 := by omega
      have hne : ¬ t.txBuf.dataIndx + 1 = t.txBuf.expLen := by omega
      simp [tx_block, htx, htbe, hmod, hge, hlast, hne]
    · have hge : t.txBuf.expLen ≤ t.txBuf.dataIndx + 1 := by omega
      have heq : t.txBuf.dataIndx + 1 = t.txBuf.expLen := by omega
      simp [tx_block, htx, htbe, hmod, hge, hlast]
      intro _
      exact ⟨c2, c3, c1⟩

theorem drop_take_cons (buf : List Nat) (n k : Nat) (hk : k < n) (hn : n ≤ buf.length) :
    (buf.take n).drop k = buf.getD k 0 :: (buf.take n).drop (k + 1) := by
  have hlen : k < (buf.take n).length := by rw [List.length_take]; omega
  rw [List.drop_eq_getElem_cons hlen, List.getElem_take,
    List.getD_eq_getElem buf 0 (by omega)]

/-- The bytes written during a transmission: from a channel in TRANSMIT with
the cursor at `k` below `n = tx.expLen ≤ 60`, a run of invocations writes the
tx storage bytes `k, k + 1, ...` in order, one for each invocation with
transmit-ready asserted, and none after byte `n - 1`. -/
theorem tx_run_writes (brd : Board) :
    ∀ (ins : List EventIn) (g : Globals) (t : transparent_s),
      t.flag < 256 → t.flag &&& START_TX = START_TX → t.flag &&& START_RX = 0 →
      g.txBuf.length = 60 → t.txBuf.expLen ≤ 60 → t.txBuf.dataIndx < t.txBuf.expLen →
      uart_writes (poll brd g t ins) =
        ((g.txBuf.take t.txBuf.expLen).drop t.txBuf.dataIndx).take
          (ins.countP (fun i => i.tbe)) := by
  intro ins
  induction ins with
  | nil => intro g t _ _ _ _ _ _; simp [poll, uart_writes]
  | cons inp rest ih =>
    intro g t hflag htx hrx hlen hn hk
    obtain ⟨s1, s2, s3, s4⟩ := tx_step brd inp g t hflag htx hrx hk hn
    have hc : (inp :: rest).countP (fun i => i.tbe) =
        rest.countP (fun i => i.tbe) + (if inp.tbe = true then 1 else 0) :=
      List.countP_cons (fun i => i.tbe) inp rest
    simp only [uart_writes, poll, List.map_cons, List.flatten_cons]
    cases htbe : inp.tbe
    · obtain ⟨e1, e2, e3⟩ := s3 htbe
      have hih := ih (transparent_event brd inp g t).g (transparent_event brd inp g t).t
        (by rw [e3]; exact hflag) (by rw [e3]; exact htx) (by rw [e3]; exact hrx)
        (by rw [s1]; exact hlen) (by rw [s2]; exact hn) (by rw [s2, e2]; exact hk)
      simp only [uart_writes] at hih
      rw [hih, e1, s1, s2, e2, hc, htbe]
      rfl
    · obtain ⟨e1, e2, e3, e4⟩ := s4 htbe
      rw [e1, hc, htbe, if_pos rfl, drop_take_cons g.txBuf _ _ hk (by omega)]
      simp only [List.filterMap_cons, written, List.filterMap_nil, List.singleton_append,
        List.take_succ_cons, List.cons.injEq, true_and]
      by_cases hlast : t.txBuf.dataIndx + 1 < t.txBuf.expLen
      · have e5 := e3 hlast
        have hih := ih (transparent_event brd inp g t).g (transparent_event brd inp g t).t
          (by rw [e5]; exact hflag) (by rw [e5]; exact htx) (by rw [e5]; exact hrx)
          (by rw [s1]; exact hlen) (by rw [s2]; exact hn) (by rw [s2, e2]; exact hlast)
        simp only [uart_writes] at hih
        rw [hih, s1, s2, e2]
      · obtain ⟨f1, _, f3, _⟩ := e4 (by omega)
        have hidle := run_writes_idle brd rest (transparent_event brd inp g t).g
          (transparent_event brd inp g t).t f3 f1
        simp only [uart_writes] at hidle
        rw [hidle, List.drop_eq_nil_of_le (by rw [List.length_take]; omega), List.take_nil]

/-- What holds of C16: after an accepted send of a payload `p` of length
between 1 and 60, a run of invocations writes `p[0], p[1], ...` to the UART
data register, one byte for each invocation with transmit-ready asserted, and
nothing after `p[n - 1]`. -/
theorem send_then_tx_writes (brd : Board) (args3 now : Nat) (p : List Nat) (g : Globals)
    (t : transparent_s) (ins : List EventIn) (hflag : t.flag < 256)
    (hidle : ¬ (t.flag &&& START_TX ≠ 0 ∨ t.flag &&& START_RX ≠ 0))
    (hpos : 1 ≤ p.length) (hlen : p.length ≤ TRANSPARENT_DATA_LEN_MAX)
    (hstore : g.txBuf.length = TRANSPARENT_DATA_LEN_MAX) :
    uart_writes (poll brd (command_transparent_send brd p.length p args3 now g t).g
        (command_transparent_send brd p.length p args3 now g t).t ins) =
      p.take (ins.countP (fun i => i.tbe)) := by
  have h60 : p.length ≤ 60 := hlen
  have hmod : p.length % 256 = p.length := Nat.mod_eq_of_lt (by omega)
  have hrx : t.flag &&& START_RX = 0 := by
    by_contra hc; exact hidle (Or.inr hc)
  obtain ⟨_, b2, _, _⟩ := send_bits_fin ⟨t.flag, hflag⟩ hrx
  have hb : (t.flag ||| START_TX) &&& START_RX = 0 ∧ t.flag ||| START_TX < 256 := by
    have := exclusive_bits_fin ⟨t.flag, hflag⟩ (Or.inr hrx)
    exact ⟨this.2.1 hrx, this.1⟩
  have hcp := memcpy_take_drop g.txBuf p p.length rfl (by rw [hstore]; exact hlen)
  have hrun := tx_run_writes brd ins
    (command_transparent_send brd p.length p args3 now g t).g
    (command_transparent_send brd p.length p args3 now g t).t
  rw [send_accepted brd p.length args3 now p g t hidle hlen] at hrun ⊢
  rw [hmod] at hrun ⊢
  have hfinal := hrun hb.2 b2 hb.1 (by simp [memcpy_length]; exact hstore) h60 hpos
  rw [hfinal]
  show List.take _ (List.drop 0 ((memcpy g.txBuf p p.length).take p.length)) = _
  rw [hcp.1, List.drop_zero]

/-! ## The baud divider -/

theorem low16_bits (x : Nat) : (0xf ||| 0xfff0) &&& (x &&& 0xfff0 ||| x &&& 0xf) = x % 65536 := by
  rw [← Nat.and_or_distrib_left]
  have h1 : (0xf ||| 0xfff0 : Nat) = 2 ^ 16 - 1 := by decide
  have h2 : (0xfff0 ||| 0xf : Nat) = 2 ^ 16 - 1 := by decide
  rw [h1, h2, Nat.and_comm, Nat.and_assoc, Nat.and_self, Nat.and_pow_two_sub_one_eq_mod]

/-- C21: for every baud rate `b` with `0 < b < 2^32` and the peripheral clock
60,000,000, `usart_init` computes `udiv = (uclk + b / 2) / b` without 32-bit
wrap, the divider is rounded to nearest, `2 * |udiv * b - uclk| ≤ b`, and the
value written to the baud register is `udiv` cut to its low 16 bits, the
integer part in bits 4..15 and the fractional part in bits 0..3. -/
theorem baud_divider_nearest (brd : Board) (fra int : Nat)
    (hb : 0 < brd.CONFIG_TRANSPARENT_SERIAL_BAUD)
    (hb32 : brd.CONFIG_TRANSPARENT_SERIAL_BAUD < U32)
    (hfra : fra = 0xf) (hint : int = 0xfff0) :
    usart_init_udiv brd =
      (USARTX_CLOCK_FREQ + brd.CONFIG_TRANSPARENT_SERIAL_BAUD / 2) /
        brd.CONFIG_TRANSPARENT_SERIAL_BAUD ∧
    2 * |((usart_init_udiv brd * brd.CONFIG_TRANSPARENT_SERIAL_BAUD : Nat) : Int) -
        (USARTX_CLOCK_FREQ : Int)| ≤ (brd.CONFIG_TRANSPARENT_SERIAL_BAUD : Int) ∧
    usart_init_baud brd fra int = usart_init_udiv brd % 65536 ∧
    usart_init_baud brd fra int / 16 = usart_init_udiv brd % 65536 / 16 ∧
    usart_init_baud brd fra int % 16 = usart_init_udiv brd % 16 := by
  have hmod : brd.CONFIG_TRANSPARENT_SERIAL_BAUD % U32 = brd.CONFIG_TRANSPARENT_SERIAL_BAUD :=
    Nat.mod_eq_of_lt hb32
  have hsum : (USARTX_CLOCK_FREQ + brd.CONFIG_TRANSPARENT_SERIAL_BAUD / 2) % U32 =
      USARTX_CLOCK_FREQ + brd.CONFIG_TRANSPARENT_SERIAL_BAUD / 2 := by
    apply Nat.mod_eq_of_lt
    unfold U32 USARTX_CLOCK_FREQ at *
    omega
  have hu : usart_init_udiv brd =
      (USARTX_CLOCK_FREQ + brd.CONFIG_TRANSPARENT_SERIAL_BAUD / 2) /
        brd.CONFIG_TRANSPARENT_SERIAL_BAUD := by
    rw [usart_init_udiv, add32, hmod, hsum]
  have hv : usart_init_baud brd fra int = usart_init_udiv brd % 65536 := by
    simp only [usart_init_baud]
    rw [hfra, hint, low16_bits]
  refine ⟨hu, ?_, hv, by rw [hv], by rw [hv]; omega⟩
  rw [hu]
  have hdm := Nat.div_add_mod (USARTX_CLOCK_FREQ + brd.CONFIG_TRANSPARENT_SERIAL_BAUD / 2)
    brd.CONFIG_TRANSPARENT_SERIAL_BAUD
  have hr := Nat.mod_lt (USARTX_CLOCK_FREQ + brd.CONFIG_TRANSPARENT_SERIAL_BAUD / 2) hb
  rw [Nat.mul_comm] at hdm
  generalize (USARTX_CLOCK_FREQ + brd.CONFIG_TRANSPARENT_SERIAL_BAUD / 2) /
    brd.CONFIG_TRANSPARENT_SERIAL_BAUD * brd.CONFIG_TRANSPARENT_SERIAL_BAUD = p at hdm ⊢
  generalize (USARTX_CLOCK_FREQ + brd.CONFIG_TRANSPARENT_SERIAL_BAUD / 2) %
    brd.CONFIG_TRANSPARENT_SERIAL_BAUD = r at hdm hr
  unfold USARTX_CLOCK_FREQ at hdm ⊢
  rcases abs_cases ((p : Int) - ((60000000 : Nat) : Int)) with ⟨h1, _⟩ | ⟨h1, _⟩ <;>
    rw [h1] <;> omega

/-- C21 at 115200 baud: the divider is 521 (32 and 9/16), the register value
521, and `521 * 115200` misses the clock by 19,200, less than half a step. -/
theorem baud_divider_nearest_witness :
    usart_init_udiv demo_board = 521 ∧ usart_init_baud demo_board 0xf 0xfff0 = 521 := by
  have h := baud_divider_nearest demo_board 0xf 0xfff0 (by decide) (by decide) rfl rfl
  exact ⟨by decide, by rw [h.2.2.1]; decide⟩

/-! ## The pin mode table -/

theorem pull_store_programs (hdr : PinHeader) (port pin pinmode i : Nat) :
    ∀ e ∈ pull_store hdr port pin pinmode i, programs_mode e = true := by
  intro e he
  simp only [pull_store] at he
  split_ifs at he <;> simp at he <;> subst he <;> rfl

theorem program_low_programs (hdr : PinHeader) (port pin pinmode temp_mode : Nat) :
    ∀ (idx : List Nat) (regs : PortRegs),
      ∀ e ∈ (program_low hdr port pin pinmode temp_mode idx regs).2,
        programs_mode e = true := by
  intro idx
  induction idx with
  | nil => intro regs e he; simp [program_low] at he
  | cons i rest ih =>
    intro regs e he
    simp only [program_low] at he
    split_ifs at he
    · simp only [List.mem_append, List.mem_singleton] at he
      rcases he with (h | h) | h
      · exact pull_store_programs hdr port pin pinmode i e h
      · subst h; rfl
      · exact ih _ e h
    · exact ih _ e he

theorem program_high_programs (hdr : PinHeader) (port pin pinmode temp_mode : Nat) :
    ∀ (idx : List Nat) (regs : PortRegs),
      ∀ e ∈ (program_high hdr port pin pinmode temp_mode idx regs).2,
        programs_mode e = true := by
  intro idx
  induction idx with
  | nil => intro regs e he; simp [program_high] at he
  | cons i rest ih =>
    intro regs e he
    simp only [program_high] at he
    split_ifs at he
    · simp only [List.mem_append, List.mem_singleton] at he
      rcases he with (h | h) | h
      · exact pull_store_programs hdr port pin pinmode i e h
      · subst h; rfl
      · exact ih _ e h
    · exact ih _ e he

/-- Everything `program_pins` does programs the mode of a pin; it neither
enables a clock nor shuts the firmware down. -/
theorem program_pins_programs (hdr : PinHeader) (port pin pinmode : Nat) (regs : PortRegs) :
    ∀ e ∈ (program_pins hdr port pin pinmode regs).2, programs_mode e = true := by
  intro e he
  simp only [program_pins, List.mem_append] at he
  rcases he with (h | h) | h
  · simp only [speed_bits] at h
    split_ifs at h <;> simp at h
    subst h; rfl
  · exact program_low_programs hdr port pin pinmode _ _ _ e h
  · exact program_high_programs hdr port pin pinmode _ _ _ e h

/-- With a pin mode selected `gpio_peripheral` enables the clock and programs
that mode. -/
theorem gpio_peripheral_selected (hdr : PinHeader) (gpio_pin otype pull_up m : Nat)
    (regs : PortRegs) (h : select_pinmode hdr otype pull_up = some m) :
    gpio_peripheral hdr gpio_pin otype pull_up regs =
      ((program_pins hdr (hdr.GPIO2PORT gpio_pin) (hdr.GPIO2BIT gpio_pin % 65536) m regs).1,
        PinEff.enable_pclock (hdr.GPIO2PORT gpio_pin) ::
          (program_pins hdr (hdr.GPIO2PORT gpio_pin) (hdr.GPIO2BIT gpio_pin % 65536) m
            regs).2) := by
  simp only [gpio_peripheral, h]

/-- C22: `gpio_peripheral` first enables the clock of the owning port, in
every case; it calls `shutdown("gpio initialize fail")` exactly when `otype`
is none of 0, 1, 2, 3, and then programs nothing; for `otype` 0 to 3 it
programs the mode of the table: output, push-pull if `pull_up = 1`, else
open-drain; input, pull-down if `pull_up = 0`, pull-up if `pull_up = 1`,
floating otherwise; analog input; alternate function, open-drain if
`pull_up = 0`, else push-pull. -/
theorem gpio_mode_table (hdr : PinHeader) (gpio_pin otype pull_up : Nat) (regs : PortRegs) :
    (∃ rest, (gpio_peripheral hdr gpio_pin otype pull_up regs).2 =
        PinEff.enable_pclock (hdr.GPIO2PORT gpio_pin) :: rest ∧
      ∀ e ∈ rest, e = PinEff.shutdown "gpio initialize fail" ∨ programs_mode e = true) ∧
    (PinEff.shutdown "gpio initialize fail" ∈
        (gpio_peripheral hdr gpio_pin otype pull_up regs).2 ↔
      ¬ (otype = 0 ∨ otype = 1 ∨ otype = 2 ∨ otype = 3)) ∧
    (¬ (otype = 0 ∨ otype = 1 ∨ otype = 2 ∨ otype = 3) →
      gpio_peripheral hdr gpio_pin otype pull_up regs =
        (regs, [PinEff.enable_pclock (hdr.GPIO2PORT gpio_pin),
          PinEff.shutdown "gpio initialize fail"])) ∧
    (otype = 0 → pull_up = 1 →
      select_pinmode hdr otype pull_up = some hdr.GPIO_MODE_OUT_PP) ∧
    (otype = 0 → pull_up ≠ 1 →
      select_pinmode hdr otype pull_up = some hdr.GPIO_MODE_OUT_OD) ∧
    (otype = 1 → pull_up = 0 →
      select_pinmode hdr otype pull_up = some hdr.GPIO_MODE_IPD) ∧
    (otype = 1 → pull_up = 1 →
      select_pinmode hdr otype pull_up = some hdr.GPIO_MODE_IPU) ∧
    (otype = 1 → pull_up ≠ 0 → pull_up ≠ 1 →
      select_pinmode hdr otype pull_up = some hdr.GPIO_MODE_IN_FLOATING) ∧
    (otype = 2 → select_pinmode hdr otype pull_up = some hdr.GPIO_MODE_AIN) ∧
    (otype = 3 → pull_up = 0 →
      select_pinmode hdr otype pull_up = some hdr.GPIO_MODE_AF_OD) ∧
    (otype = 3 → pull_up ≠ 0 →
      select_pinmode hdr otype pull_up = some hdr.GPIO_MODE_AF_PP) ∧
    (∀ m, select_pinmode hdr otype pull_up = some m →
      gpio_peripheral hdr gpio_pin otype pull_up regs =
        ((program_pins hdr (hdr.GPIO2PORT gpio_pin) (hdr.GPIO2BIT gpio_pin % 65536) m
            regs).1,
          PinEff.enable_pclock (hdr.GPIO2PORT gpio_pin) ::
            (program_pins hdr (hdr.GPIO2PORT gpio_pin) (hdr.GPIO2BIT gpio_pin % 65536) m
              regs).2)) := by
  have hsel : (¬ (otype = 0 ∨ otype = 1 ∨ otype = 2 ∨ otype = 3) →
        select_pinmode hdr otype pull_up = none) ∧
      ((otype = 0 ∨ otype = 1 ∨ otype = 2 ∨ otype = 3) →
        ∃ m, select_pinmode hdr otype pull_up = some m) := by
    constructor
    · intro h
      simp only [not_or] at h
      simp [select_pinmode, h.1, h.2.1, h.2.2.1, h.2.2.2]
    · intro h
      simp only [select_pinmode]
      rcases h with h | h | h | h <;> subst h <;> split_ifs <;>
        first | exact ⟨_, rfl⟩ | omega
  have hbad : ¬ (otype = 0 ∨ otype = 1 ∨ otype = 2 ∨ otype = 3) →
      gpio_peripheral hdr gpio_pin otype pull_up regs =
        (regs, [PinEff.enable_pclock (hdr.GPIO2PORT gpio_pin),
          PinEff.shutdown "gpio initialize fail"]) := by
    intro h
    simp only [gpio_peripheral, hsel.1 h]
  refine ⟨?_, ?_, hbad, ?_, ?_, ?_, ?_, ?_, ?_, ?_, ?_, ?_⟩
  · by_cases h : otype = 0 ∨ otype = 1 ∨ otype = 2 ∨ otype = 3
    · obtain ⟨m, hm⟩ := hsel.2 h
      rw [gpio_peripheral_selected hdr gpio_pin otype pull_up m regs hm]
      exact ⟨_, rfl, fun e he => Or.inr (program_pins_programs hdr _ _ m regs e he)⟩
    · rw [hbad h]
      exact ⟨_, rfl, fun e he => Or.inl (by simpa using he)⟩
  · constructor
    · intro hin h
      obtain ⟨m, hm⟩ := hsel.2 h
      rw [gpio_peripheral_selected hdr gpio_pin otype pull_up m regs hm] at hin
      simp only [List.mem_cons] at hin
      rcases hin with hin | hin
      · exact absurd hin (by simp)
      · have := program_pins_programs hdr _ _ m regs _ hin
        simp [programs_mode] at this
    · intro h
      rw [hbad h]
      simp
  · intro h1 h2; subst h1; subst h2; simp [select_pinmode]
  · intro h1 h2; subst h1; simp [select_pinmode, h2]
  · intro h1 h2; subst h1; subst h2; simp [select_pinmode]
  · intro h1 h2; subst h1; subst h2; simp [select_pinmode]
  · intro h1 h2 h3; subst h1; simp [select_pinmode, h2, h3]
  · intro h1; subst h1; simp [select_pinmode]
  · intro h1 h2; subst h1; subst h2; simp [select_pinmode]
  · intro h1 h2; subst h1; simp [select_pinmode, h2]
  · intro m hm
    exact gpio_peripheral_selected hdr gpio_pin otype pull_up m regs hm

/-- C22 on pin PB10 as a push-pull output, and with the unknown `otype` 4. -/
theorem gpio_mode_table_witness :
    select_pinmode demo_header 0 1 = some demo_header.GPIO_MODE_OUT_PP ∧
    gpio_peripheral demo_header 26 0 1 { ctl0 := 0x44444444, ctl1 := 0x44444444 } =
      ({ ctl0 := 0x44444444, ctl1 := 0x44444344 },
        [PinEff.enable_pclock 1, PinEff.ctl1_write 1 0x44444344]) ∧
    gpio_peripheral demo_header 26 4 1 { ctl0 := 0x44444444, ctl1 := 0x44444444 } =
      ({ ctl0 := 0x44444444, ctl1 := 0x44444444 },
        [PinEff.enable_pclock 1, PinEff.shutdown "gpio initialize fail"]) := by
  have h := gpio_mode_table demo_header 26 0 1 { ctl0 := 0x44444444, ctl1 := 0x44444444 }
  have h4 := gpio_mode_table demo_header 26 4 1 { ctl0 := 0x44444444, ctl1 := 0x44444444 }
  exact ⟨h.2.2.2.1 rfl rfl, by decide, h4.2.2.1 (by decide)⟩

/-! ## Sends accepted while a report is pending -/

theorem reach_demo_late_receiving :
    Reach demo_board demo_late_receiving.1 demo_late_receiving.2 :=
  reach_run_events demo_board [demo_ready 200002000] _ _
    (Reach.send _ _ 1 [7] 1000 200001000
      (reach_run_events demo_board demo_timeout_run _ _ reach_demo_sent))

set_option maxRecDepth 100000 in
/-- C1, evaluated on a run from a fresh channel: a send whose peer stays
silent until the timeout fires, a second send accepted before the report task
has run (RX_TIMEOUT is still set, and the busy check looks only at START_TX
and START_RX), its byte written.  The channel has then just entered RECEIVE:
START_RX set, rx cursor 0, rx expected length 0.  The well-formed frame
`1, 2, 2, 9, 7` is delivered with receive-ready asserted and no timeout
firing; the first four invocations return SF_RESCHEDULE and stay in RECEIVE,
the fifth clears START_RX, sets START_REPORT and returns SF_DONE, the five
bytes are in the rx storage, and the following `transparent_task` emits a
response with byte count 0 and no bytes, not the frame. -/
theorem frame_reported_as_timeout :
    Reach demo_board demo_late_receiving.1 demo_late_receiving.2 ∧
    demo_late_receiving.2.flag = START_RX ||| RX_TIMEOUT ∧
    demo_late_receiving.2.flag &&& START_RX = START_RX ∧
    demo_late_receiving.2.rxBuf.dataIndx = 0 ∧
    demo_late_receiving.2.rxBuf.expLen = 0 ∧
    demo_frame.map (fun i => (i.rbne, rx_byte i.data)) =
      [(true, 1), (true, 2), (true, 2), (true, 9), (true, 7)] ∧
    no_timeout demo_board demo_late_receiving.1 demo_late_receiving.2 demo_frame ∧
    (poll demo_board demo_late_receiving.1 demo_late_receiving.2 demo_frame).map
        (fun o => (o.ret, o.t.flag &&& START_RX, o.t.flag &&& START_REPORT)) =
      [(sf.SF_RESCHEDULE, START_RX, 0), (sf.SF_RESCHEDULE, START_RX, 0),
       (sf.SF_RESCHEDULE, START_RX, 0), (sf.SF_RESCHEDULE, START_RX, 0),
       (sf.SF_DONE, 0, START_REPORT)] ∧
    (poll demo_board demo_late_receiving.1 demo_late_receiving.2 demo_frame).getLast?.map
        (fun o => (o.g.rxBuf.take 5,
          (transparent_task { g := o.g, objs := [(0, o.t)] }).2)) =
      some ([1, 2, 2, 9, 7], [Eff.response 0 0 [], Eff.del_timer]) := by
  refine ⟨reach_demo_late_receiving, by decide, by decide, by decide, by decide, by decide,
    ?_, by decide, by decide⟩
  unfold demo_frame
  exact ⟨by decide, by decide, by decide, by decide, by decide, trivial⟩

theorem or_start_tx_ne (f : Nat) (h : f &&& START_TX = 0) : f ||| START_TX ≠ f := by
  intro he
  have h1 := or_and_self_bits f START_TX
  rw [he, h] at h1
  exact absurd h1 (by decide)

/-- C5: in REPORT_PENDING or TIMED_OUT (START_REPORT or RX_TIMEOUT set,
START_TX and START_RX clear) the channel is not idle, yet a send request of
length at most 60 is accepted.  The state does not stay as it was: START_TX is
set in the flag, the timer is scheduled, the tx expected length, tx cursor and
tx storage are overwritten with the new request and the rx timeout fields with
the new timeout, while the rx cursor and rx expected length of the finished
transaction stay.  The report task, which the finished transaction has woken,
then clears the flag and the tx expected length and cancels the timer, so the
accepted request is dropped. -/
theorem send_accepted_with_report_pending (brd : Board) (oid args1 args3 now : Nat)
    (write : List Nat) (g : Globals) (t : transparent_s)
    (hpend : t.flag = START_REPORT ∨ t.flag = RX_TIMEOUT ∨
      t.flag = START_REPORT ||| RX_TIMEOUT)
    (hlen : args1 ≤ TRANSPARENT_DATA_LEN_MAX) :
    t.flag ≠ 0 ∧
    (command_transparent_send brd args1 write args3 now g t).trace = [Eff.add_timer] ∧
    (command_transparent_send brd args1 write args3 now g t).t.flag = t.flag ||| START_TX ∧
    (command_transparent_send brd args1 write args3 now g t).t.flag ≠ t.flag ∧
    (command_transparent_send brd args1 write args3 now g t).t.timer =
      { waketime := add32 now (brd.timer_from_us 200), armed := true } ∧
    (command_transparent_send brd args1 write args3 now g t).t.txBuf.expLen = args1 ∧
    (command_transparent_send brd args1 write args3 now g t).t.txBuf.dataIndx = 0 ∧
    (command_transparent_send brd args1 write args3 now g t).g.txBuf =
      memcpy g.txBuf write args1 ∧
    (command_transparent_send brd args1 write args3 now g t).t.rxBuf =
      { send_timeout args3 t.rxBuf with startTime := 0 } ∧
    (command_transparent_send brd args1 write args3 now g t).t.rxBuf.dataIndx =
      t.rxBuf.dataIndx ∧
    (command_transparent_send brd args1 write args3 now g t).t.rxBuf.expLen =
      t.rxBuf.expLen ∧
    (transparent_task_body oid (command_transparent_send brd args1 write args3 now g t).g
      (command_transparent_send brd args1 write args3 now g t).t).t.flag = 0 ∧
    (transparent_task_body oid (command_transparent_send brd args1 write args3 now g t).g
      (command_transparent_send brd args1 write args3 now g t).t).t.txBuf.expLen = 0 ∧
    (transparent_task_body oid (command_transparent_send brd args1 write args3 now g t).g
      (command_transparent_send brd args1 write args3 now g t).t).t.timer.armed = false := by
  have hbits : t.flag ≠ 0 ∧ t.flag &&& START_TX = 0 ∧ t.flag &&& START_RX = 0 := by
    rcases hpend with h | h | h <;> rw [h] <;> decide
  have hidle : ¬ (t.flag &&& START_TX ≠ 0 ∨ t.flag &&& START_RX ≠ 0) := by
    simp [hbits.2.1, hbits.2.2]
  have hmod : args1 % 256 = args1 := Nat.mod_eq_of_lt (by unfold TRANSPARENT_DATA_LEN_MAX at hlen; omega)
  have hb := task_body_reports_any_channel oid
    (command_transparent_send brd args1 write args3 now g t).g
    (command_transparent_send brd args1 write args3 now g t).t
  refine ⟨hbits.1, ?_, ?_, ?_, ?_, ?_, ?_, ?_, ?_, ?_, ?_, hb.2.1, ?_, hb.2.2⟩
  · rw [send_accepted brd args1 args3 now write g t hidle hlen]
  · rw [send_accepted brd args1 args3 now write g t hidle hlen]
  · rw [send_accepted brd args1 args3 now write g t hidle hlen]
    exact or_start_tx_ne t.flag hbits.2.1
  · rw [send_accepted brd args1 args3 now write g t hidle hlen]
  · rw [send_accepted brd args1 args3 now write g t hidle hlen]
    exact hmod
  · rw [send_accepted brd args1 args3 now write g t hidle hlen]
  · rw [send_accepted brd args1 args3 now write g t hidle hlen, hmod]
  · rw [send_accepted brd args1 args3 now write g t hidle hlen]
  · rw [send_accepted brd args1 args3 now write g t hidle hlen]
    exact send_timeout_dataIndx args3 t.rxBuf
  · rw [send_accepted brd args1 args3 now write g t hidle hlen]
    exact send_timeout_expLen args3 t.rxBuf
  · simp [transparent_task_body]

/-- C5 on a run from a fresh channel: a send, its byte written, the peer's
complete frame `1, 2, 0` received (REPORT_PENDING, the report task woken),
and a second send of the byte `5` before the task runs. -/
theorem send_accepted_with_report_pending_witness :
    Reach demo_board (run_events demo_board demo_sent.g demo_sent.t demo_answered).1
      (run_events demo_board demo_sent.g demo_sent.t demo_answered).2 ∧
    (run_events demo_board demo_sent.g demo_sent.t demo_answered).2.flag = START_REPORT ∧
    (run_events demo_board demo_sent.g demo_sent.t demo_answered).1.transparent_wake = true ∧
    (command_transparent_send demo_board 1 [5] 100 8000
      (run_events demo_board demo_sent.g demo_sent.t demo_answered).1
      (run_events demo_board demo_sent.g demo_sent.t demo_answered).2).t.flag =
        START_REPORT ||| START_TX ∧
    (command_transparent_send demo_board 1 [5] 100 8000
      (run_events demo_board demo_sent.g demo_sent.t demo_answered).1
      (run_events demo_board demo_sent.g demo_sent.t demo_answered).2).trace =
        [Eff.add_timer] ∧
    (transparent_task_body 0
      (command_transparent_send demo_board 1 [5] 100 8000
        (run_events demo_board demo_sent.g demo_sent.t demo_answered).1
        (run_events demo_board demo_sent.g demo_sent.t demo_answered).2).g
      (command_transparent_send demo_board 1 [5] 100 8000
        (run_events demo_board demo_sent.g demo_sent.t demo_answered).1
        (run_events demo_board demo_sent.g demo_sent.t demo_answered).2).t).t.flag = 0 := by
  have h := send_accepted_with_report_pending demo_board 0 1 100 8000 [5]
    (run_events demo_board demo_sent.g demo_sent.t demo_answered).1
    (run_events demo_board demo_sent.g demo_sent.t demo_answered).2
    (Or.inl (by decide)) (by decide)
  exact ⟨reach_run_events demo_board demo_answered _ _ reach_demo_sent, by decide, by decide,
    h.2.2.1.trans (by decide), h.2.1, h.2.2.2.2.2.2.2.2.2.2.2.1⟩

/-! ## A timeout of 128 s and more -/

theorem tx_block_stuck (inp : EventIn) (g : Globals) (t : transparent_s) (tr : List Eff)
    (hneg : t.rxBuf.timeoutS < 0)
    (hbusy : t.flag &&& START_TX ≠ 0 ∨ t.flag &&& START_RX ≠ 0) (htr : Eff.wake ∉ tr) :
    (tx_block inp g t tr).ret = sf.SF_RESCHEDULE ∧ Eff.wake ∉ (tx_block inp g t tr).trace ∧
    (tx_block inp g t tr).t.rxBuf.timeoutS < 0 ∧
    ((tx_block inp g t tr).t.flag &&& START_TX ≠ 0 ∨
      (tx_block inp g t tr).t.flag &&& START_RX ≠ 0) := by
  simp only [tx_block]
  split_ifs
  · refine ⟨rfl, by simp [htr], hneg, Or.inr ?_⟩
    show (clear_bits t.flag START_TX ||| START_RX) &&& START_RX ≠ 0
    rw [or_and_self_bits]
    decide
  · exact ⟨rfl, by simp [htr], hneg, hbusy⟩
  · exact ⟨rfl, htr, hneg, hbusy⟩
  · exact ⟨rfl, htr, hneg, hbusy⟩

/-- With a negative seconds counter neither the one-second accounting nor the
timeout test ever holds: an invocation that finds no received byte returns
SF_RESCHEDULE, wakes nobody, and leaves the counter negative and the channel
busy. -/
theorem event_stuck (brd : Board) (inp : EventIn) (g : Globals) (t : transparent_s)
    (hneg : t.rxBuf.timeoutS < 0)
    (hbusy : t.flag &&& START_TX ≠ 0 ∨ t.flag &&& START_RX ≠ 0) (hrb : inp.rbne = false) :
    (transparent_event brd inp g t).ret = sf.SF_RESCHEDULE ∧
    Eff.wake ∉ (transparent_event brd inp g t).trace ∧
    (transparent_event brd inp g t).t.rxBuf.timeoutS < 0 ∧
    ((transparent_event brd inp g t).t.flag &&& START_TX ≠ 0 ∨
      (transparent_event brd inp g t).t.flag &&& START_RX ≠ 0) := by
  have hs : rx_seconds brd inp t.rxBuf = t.rxBuf := by
    unfold rx_seconds
    rw [if_neg (by omega)]
  have hto : rx_timed_out brd inp t.rxBuf = false := by
    have h0 : t.rxBuf.timeoutS ≠ 0 := by omega
    simp [rx_timed_out, h0]
  have hev : transparent_event brd inp g t =
      tx_block inp g { t with timer := { t.timer with
        waketime := add32 t.timer.waketime (TRANSPARENT_POLLING_PERIOD_TICKS brd) } } [] := by
    by_cases hrx : t.flag &&& START_RX = START_RX
    · simp [transparent_event, hrx, hs, hto, hrb]
    · simp [transparent_event, hrx]
  rw [hev]
  exact tx_block_stuck inp g _ [] hneg hbusy (by simp)

theorem poll_stuck (brd : Board) :
    ∀ (ins : List EventIn) (g : Globals) (t : transparent_s),
      t.rxBuf.timeoutS < 0 → (t.flag &&& START_TX ≠ 0 ∨ t.flag &&& START_RX ≠ 0) →
      (∀ i ∈ ins, i.rbne = false) →
      ∀ o ∈ poll brd g t ins,
        o.ret = sf.SF_RESCHEDULE ∧ Eff.wake ∉ o.trace ∧ o.t.rxBuf.timeoutS < 0 ∧
        (o.t.flag &&& START_TX ≠ 0 ∨ o.t.flag &&& START_RX ≠ 0) := by
  intro ins
  induction ins with
  | nil => intro g t _ _ _ o ho; simp [poll] at ho
  | cons inp rest ih =>
    intro g t hneg hbusy hq o ho
    have hst := event_stuck brd inp g t hneg hbusy (hq inp (by simp))
    simp only [poll, List.mem_cons] at ho
    rcases ho with ho | ho
    · rw [ho]; exact hst
    · exact ih _ _ hst.2.2.1 hst.2.2.2 (fun i hi => hq i (by simp [hi])) o ho

/-- C9: for `128000 ≤ timeout_ms < 256000` an accepted send stores the whole
seconds `timeout_ms / 1000` in the `int8_t` field as `timeout_ms / 1000 - 256`,
a negative number: the split does not represent the request, and with a peer
that never answers the timeout never fires.  Whatever the clock shows and
however many times `transparent_event` then runs without a received byte, it
returns SF_RESCHEDULE, does not wake the report task, and the channel stays
busy (START_TX or START_RX set) with the counter negative. -/
theorem long_timeout_never_fires (brd : Board) (args1 args3 now : Nat) (write : List Nat)
    (g : Globals) (t : transparent_s)
    (hidle : ¬ (t.flag &&& START_TX ≠ 0 ∨ t.flag &&& START_RX ≠ 0))
    (hlen : args1 ≤ TRANSPARENT_DATA_LEN_MAX)
    (hlo : 128000 ≤ args3) (hhi : args3 < 256000) :
    (command_transparent_send brd args1 write args3 now g t).t.rxBuf.timeoutS =
      ((args3 / 1000 : Nat) : Int) - 256 ∧
    (command_transparent_send brd args1 write args3 now g t).t.rxBuf.timeoutS < 0 ∧
    (command_transparent_send brd args1 write args3 now g t).t.rxBuf.timeoutS * 1000000 +
      ((command_transparent_send brd args1 write args3 now g t).t.rxBuf.timeoutUs : Int) ≠
      ((args3 * 1000 : Nat) : Int) ∧
    ∀ ins : List EventIn, (∀ i ∈ ins, i.rbne = false) →
      ∀ o ∈ poll brd (command_transparent_send brd args1 write args3 now g t).g
          (command_transparent_send brd args1 write args3 now g t).t ins,
        o.ret = sf.SF_RESCHEDULE ∧ Eff.wake ∉ o.trace ∧ o.t.rxBuf.timeoutS < 0 ∧
        (o.t.flag &&& START_TX ≠ 0 ∨ o.t.flag &&& START_RX ≠ 0) := by
  have hq : args3 / 1000 % 256 = args3 / 1000 := Nat.mod_eq_of_lt (by omega)
  have hq2 : ¬ args3 / 1000 < 128 := by omega
  have hfit : args3 % 1000 * 1000 % U32 = args3 % 1000 * 1000 :=
    Nat.mod_eq_of_lt (by unfold U32; omega)
  have hst : send_timeout args3 t.rxBuf =
      { t.rxBuf with timeoutS := ((args3 / 1000 : Nat) : Int) - 256,
                     timeoutUs := args3 % 1000 * 1000 } := by
    rw [send_timeout, if_pos (by omega), hfit, toInt8, hq, if_neg hq2]
  have hS : (command_transparent_send brd args1 write args3 now g t).t.rxBuf.timeoutS =
      ((args3 / 1000 : Nat) : Int) - 256 := by
    rw [send_accepted brd args1 args3 now write g t hidle hlen, hst]
  have hU : (command_transparent_send brd args1 write args3 now g t).t.rxBuf.timeoutUs =
      args3 % 1000 * 1000 := by
    rw [send_accepted brd args1 args3 now write g t hidle hlen, hst]
  have hneg : (command_transparent_send brd args1 write args3 now g t).t.rxBuf.timeoutS < 0 := by
    rw [hS]; omega
  have hbusy : (command_transparent_send brd args1 write args3 now g t).t.flag &&& START_TX ≠ 0 ∨
      (command_transparent_send brd args1 write args3 now g t).t.flag &&& START_RX ≠ 0 := by
    left
    rw [send_accepted brd args1 args3 now write g t hidle hlen]
    show (t.flag ||| START_TX) &&& START_TX ≠ 0
    rw [or_and_self_bits]
    decide
  refine ⟨hS, hneg, ?_, ?_⟩
  · rw [hS, hU]; omega
  · intro ins hq o ho
    exact poll_stuck brd ins _ _ hneg hbusy hq o ho

/-- C9 at `timeout_ms = 128000`: the counter holds -128, and after the three
bytes are written the channel sits in RECEIVE through more than 35 s of
silence on a 120 MHz clock. -/
theorem long_timeout_never_fires_witness :
    (command_transparent_send demo_board 3 [1, 2, 0] 128000 7000 demo_globals
      demo_idle).t.rxBuf.timeoutS = -128 ∧
    (poll demo_board
      (command_transparent_send demo_board 3 [1, 2, 0] 128000 7000 demo_globals demo_idle).g
      (command_transparent_send demo_board 3 [1, 2, 0] 128000 7000 demo_globals demo_idle).t
      demo_long_silence).map (fun o => o.t.flag) =
        [START_TX, START_TX, START_RX, START_RX, START_RX, START_RX, START_RX] ∧
    ∀ o ∈ poll demo_board
      (command_transparent_send demo_board 3 [1, 2, 0] 128000 7000 demo_globals demo_idle).g
      (command_transparent_send demo_board 3 [1, 2, 0] 128000 7000 demo_globals demo_idle).t
      demo_long_silence, o.ret = sf.SF_RESCHEDULE ∧ Eff.wake ∉ o.trace := by
  have h := long_timeout_never_fires demo_board 3 128000 7000 [1, 2, 0] demo_globals demo_idle
    (by decide) (by decide) (by decide) (by decide)
  refine ⟨h.1.trans (by decide), by decide, ?_⟩
  intro o ho
  have h4 := h.2.2.2 demo_long_silence (by decide) o ho
  exact ⟨h4.1, h4.2.1⟩

end K2
